import Mathlib

/-!
Verification development for the cpa-sim simulation pipeline.

Arrays of `n` complex samples are embedded as functions `ZMod n → ℂ`; real
(`float`) arithmetic of the source is embedded as exact real arithmetic on `ℝ`.
`numpy.fft.fft` / `ifft` (with the numpy sign and `1/N` conventions) are
embedded on top of Mathlib's discrete Fourier transform `ZMod.dft`, and
`numpy.fft.fftshift` / `ifftshift` as index rotations by `N / 2`.
-/

set_option linter.unusedSectionVars false

open Complex Finset

open scoped Classical

namespace CpaSim

variable {N : ℕ} [NeZero N]

/-- `numpy.fft.fft`: `X[k] = Σ_j x[j] · exp(-2πi·j·k/N)`.  This is exactly
Mathlib's `ZMod.dft` (see `npfft_apply` below for the explicit formula). -/
noncomputable def npfft (x : ZMod N → ℂ) : ZMod N → ℂ := ZMod.dft x

/-- `numpy.fft.ifft`: `x[j] = (1/N) Σ_k X[k] · exp(2πi·j·k/N)`, the inverse of
`npfft`. -/
noncomputable def npifft (x : ZMod N → ℂ) : ZMod N → ℂ := (ZMod.dft).symm x

/-- The embedded `npfft` agrees with the numpy documentation formula
`X[k] = Σ_j x[j] · exp(-2πi·j·k/N)`. -/
theorem npfft_apply (x : ZMod N → ℂ) (k : ZMod N) :
    npfft x k = ∑ j : ZMod N,
      Complex.exp (-(2 * Real.pi * Complex.I * (j.val : ℂ) * (k.val : ℂ)) / N) * x j := by
  rw [npfft, ZMod.dft_apply]
  refine Finset.sum_congr rfl fun j _ => ?_
  simp only [Circle.smul_def, smul_eq_mul]
  congr 1
  have hj : ((j.val : ℕ) : ZMod N) = j := ZMod.natCast_rightInverse j
  have hk : ((k.val : ℕ) : ZMod N) = k := ZMod.natCast_rightInverse k
  have harg : (((-(j.val * k.val) : ℤ)) : ZMod N) = -(j * k) := by
    push_cast
    rw [hj, hk]
  rw [← harg, ZMod.stdAddChar_coe]
  congr 1
  push_cast
  ring

theorem npifft_npfft (x : ZMod N → ℂ) : npifft (npfft x) = x := by
  simp [npifft, npfft]

theorem npfft_npifft (x : ZMod N → ℂ) : npfft (npifft x) = x := by
  simp [npifft, npfft]

lemma dft_mul_sum (x y : ZMod N → ℂ) :
    ∑ k : ZMod N, ZMod.dft x k * y k = ∑ j : ZMod N, x j * ZMod.dft y j := by
  simp only [ZMod.dft_apply, Circle.smul_def, smul_eq_mul, Finset.sum_mul, Finset.mul_sum]
  rw [Finset.sum_comm]
  refine Finset.sum_congr rfl fun j _ => Finset.sum_congr rfl fun k _ => ?_
  rw [mul_comm j k]
  ring

lemma conj_dft (x : ZMod N → ℂ) (k : ZMod N) :
    (starRingEnd ℂ) (ZMod.dft x k) = ZMod.dft (fun j => (starRingEnd ℂ) (x j)) (-k) := by
  rw [ZMod.dft_apply, ZMod.dft_apply, map_sum]
  refine Finset.sum_congr rfl fun j _ => ?_
  simp only [Circle.smul_def, smul_eq_mul, map_mul]
  congr 1
  have h2 : -(j * -k) = j * k := by ring
  rw [h2, ZMod.stdAddChar_apply, ZMod.stdAddChar_apply, ← Circle.coe_inv_eq_conj]
  congr 1
  rw [← AddChar.map_neg_eq_inv, neg_neg]

/-- Discrete Parseval identity for the numpy-convention forward transform:
`Σ_k |X[k]|² = N · Σ_j |x[j]|²`. -/
theorem npfft_parseval (x : ZMod N → ℂ) :
    ∑ k : ZMod N, Complex.abs (npfft x k) ^ 2 = N * ∑ j : ZMod N, Complex.abs (x j) ^ 2 := by
  have habs : ∀ z : ℂ, ((Complex.abs z ^ 2 : ℝ) : ℂ) = z * (starRingEnd ℂ) z := by
    intro z
    rw [Complex.mul_conj]
    norm_cast
    exact Complex.sq_abs z
  have hconj : ∀ k, (starRingEnd ℂ) (npfft x k)
      = ZMod.dft (fun j => (starRingEnd ℂ) (x (-j))) k := by
    intro k
    rw [npfft, conj_dft]
    exact (congrFun (ZMod.dft_comp_neg fun j => (starRingEnd ℂ) (x j)) k).symm
  have key : ∑ k : ZMod N, npfft x k * (starRingEnd ℂ) (npfft x k)
      = (N : ℂ) * ∑ j : ZMod N, x j * (starRingEnd ℂ) (x j) := by
    calc ∑ k : ZMod N, npfft x k * (starRingEnd ℂ) (npfft x k)
        = ∑ k : ZMod N, ZMod.dft x k * ZMod.dft (fun j => (starRingEnd ℂ) (x (-j))) k :=
          Finset.sum_congr rfl fun k _ => by rw [hconj k]; rfl
      _ = ∑ j : ZMod N, x j * ZMod.dft (ZMod.dft fun i => (starRingEnd ℂ) (x (-i))) j :=
          dft_mul_sum x _
      _ = (N : ℂ) * ∑ j : ZMod N, x j * (starRingEnd ℂ) (x j) := by
          rw [Finset.mul_sum]
          refine Finset.sum_congr rfl fun j _ => ?_
          rw [ZMod.dft_dft]
          simp only [neg_neg, smul_eq_mul]
          ring
  have hcast : ((∑ k : ZMod N, Complex.abs (npfft x k) ^ 2 : ℝ) : ℂ)
      = ((N * ∑ j : ZMod N, Complex.abs (x j) ^ 2 : ℝ) : ℂ) := by
    calc ((∑ k : ZMod N, Complex.abs (npfft x k) ^ 2 : ℝ) : ℂ)
        = ∑ k : ZMod N, ((Complex.abs (npfft x k) ^ 2 : ℝ) : ℂ) := by push_cast; rfl
      _ = ∑ k : ZMod N, npfft x k * (starRingEnd ℂ) (npfft x k) :=
          Finset.sum_congr rfl fun k _ => habs _
      _ = (N : ℂ) * ∑ j : ZMod N, x j * (starRingEnd ℂ) (x j) := key
      _ = (N : ℂ) * ∑ j : ZMod N, ((Complex.abs (x j) ^ 2 : ℝ) : ℂ) := by
          congr 1
          exact Finset.sum_congr rfl fun j _ => (habs _).symm
      _ = ((N * ∑ j : ZMod N, Complex.abs (x j) ^ 2 : ℝ) : ℂ) := by push_cast; rfl
  exact_mod_cast hcast

/-- `numpy.fft.fftshift`: circular roll by `N / 2` (zero frequency moved to the
centre), `fftshift(x)[k] = x[(k - N//2) mod N]`. -/
def npfftshift {α : Type} (x : ZMod N → α) : ZMod N → α :=
  fun k => x (k - ((N / 2 : ℕ) : ZMod N))

/-- `numpy.fft.ifftshift`: circular roll by `-(N / 2)`, the inverse of
`npfftshift`. -/
def npifftshift {α : Type} (x : ZMod N → α) : ZMod N → α :=
  fun k => x (k + ((N / 2 : ℕ) : ZMod N))

theorem npifftshift_npfftshift {α : Type} (x : ZMod N → α) :
    npifftshift (npfftshift x) = x := by
  funext k
  simp [npifftshift, npfftshift]

theorem npfftshift_npifftshift {α : Type} (x : ZMod N → α) :
    npfftshift (npifftshift x) = x := by
  funext k
  simp [npifftshift, npfftshift]

lemma sum_comp_add_right {M : Type} [AddCommMonoid M] (c : ZMod N) (h : ZMod N → M) :
    ∑ k : ZMod N, h (k + c) = ∑ k : ZMod N, h k :=
  Equiv.sum_comp (Equiv.addRight c) h

lemma sum_comp_sub_right {M : Type} [AddCommMonoid M] (c : ZMod N) (h : ZMod N → M) :
    ∑ k : ZMod N, h (k - c) = ∑ k : ZMod N, h k :=
  Equiv.sum_comp (Equiv.subRight c) h

/-- The composite `np.fft.fftshift(np.fft.fft(np.fft.ifftshift(x)))` used by
every stage of the source to go from the (centred) time domain to the
(centred) frequency domain. -/
noncomputable def npfft_centered (x : ZMod N → ℂ) : ZMod N → ℂ :=
  npfftshift (npfft (npifftshift x))

/-- The composite `np.fft.fftshift(np.fft.ifft(np.fft.ifftshift(x)))` used by
the source to go from the centred frequency domain back to the time domain. -/
noncomputable def npifft_centered (x : ZMod N → ℂ) : ZMod N → ℂ :=
  npfftshift (npifft (npifftshift x))

theorem npifft_centered_npfft_centered (x : ZMod N → ℂ) :
    npifft_centered (npfft_centered x) = x := by
  rw [npifft_centered, npfft_centered, npifftshift_npfftshift, npifft_npfft,
    npfftshift_npifftshift]

theorem npfft_centered_npifft_centered (x : ZMod N → ℂ) :
    npfft_centered (npifft_centered x) = x := by
  rw [npifft_centered, npfft_centered, npifftshift_npfftshift, npfft_npifft,
    npfftshift_npifftshift]

theorem npfft_centered_parseval (x : ZMod N → ℂ) :
    ∑ k : ZMod N, Complex.abs (npfft_centered x k) ^ 2
      = N * ∑ j : ZMod N, Complex.abs (x j) ^ 2 := by
  rw [npfft_centered]
  calc ∑ k : ZMod N, Complex.abs (npfftshift (npfft (npifftshift x)) k) ^ 2
      = ∑ k : ZMod N, Complex.abs (npfft (npifftshift x) k) ^ 2 :=
        sum_comp_sub_right _ fun k => Complex.abs (npfft (npifftshift x) k) ^ 2
    _ = N * ∑ j : ZMod N, Complex.abs (npifftshift x j) ^ 2 := npfft_parseval _
    _ = N * ∑ j : ZMod N, Complex.abs (x j) ^ 2 := by
        congr 1
        exact sum_comp_add_right _ fun j => Complex.abs (x j) ^ 2

theorem npifft_centered_parseval (y : ZMod N → ℂ) :
    (N : ℝ) * ∑ j : ZMod N, Complex.abs (npifft_centered y j) ^ 2
      = ∑ k : ZMod N, Complex.abs (y k) ^ 2 := by
  have h := npfft_centered_parseval (npifft_centered y)
  rw [npfft_centered_npifft_centered] at h
  rw [← h]

/-! ## Data model (src/cpa_sim/models/state.py, src/cpa_sim/models/config.py) -/

/-- `PulseSpec.shape`: `Literal["gaussian", "sech2"]`. -/
inductive PulseShape
  | gaussian
  | sech2
deriving DecidableEq

/-- `cpa_sim.models.state.PulseSpec`.  The `*_set` booleans embed membership of
the corresponding field in pydantic's `model_fields_set` (the source consults
it via `_field_explicitly_set` for `width_fs` and `amplitude`). -/
structure PulseSpec where
  shape : PulseShape := .gaussian
  amplitude : ℝ := 1.0
  avg_power_w : Option ℝ := none
  pulse_energy_j : Option ℝ := none
  peak_power_w : Option ℝ := none
  width_fs : ℝ := 100.0
  intensity_autocorr_fwhm_fs : Option ℝ := none
  center_wavelength_nm : ℝ := 1030.0
  rep_rate_mhz : ℝ := 1.0
  n_samples : ℕ := 256
  time_window_fs : ℝ := 2000.0
  width_fs_set : Bool := false
  amplitude_set : Bool := false

/-- `cpa_sim.models.state.BeamSpec`. -/
structure BeamSpec where
  radius_mm : ℝ := 1.0
  m2 : ℝ := 1.0

/-- `cpa_sim.models.state.LaserSpec`. -/
structure LaserSpec where
  pulse : PulseSpec := {}
  beam : BeamSpec := {}

/-- `cpa_sim.models.config.TreacyGratingPairCfg`. -/
structure TreacyGratingPairCfg where
  name : String
  line_density_lpmm : ℝ := 1200.0
  incidence_angle_deg : ℝ := 35.0
  separation_um : ℝ := 100000.0
  wavelength_nm : ℝ := 1030.0
  diffraction_order : ℤ := -1
  n_passes : ℕ := 2
  include_tod : Bool := true
  apply_to_pulse : Bool := true
  override_gdd_fs2 : Option ℝ := none
  override_tod_fs3 : Option ℝ := none

/-- `cpa_sim.models.config.PhaseOnlyDispersionCfg`. -/
structure PhaseOnlyDispersionCfg where
  name : String
  gdd_fs2 : ℝ := 0.0
  tod_fs3 : ℝ := 0.0
  apply_to_pulse : Bool := true

/-- `cpa_sim.models.config.FreeSpaceCfg`: tagged union discriminated by `kind`. -/
inductive FreeSpaceCfg
  | treacy_grating_pair (cfg : TreacyGratingPairCfg)
  | phase_only_dispersion (cfg : PhaseOnlyDispersionCfg)

/-- `cpa_sim.models.config.DispersionTaylorCfg`. -/
structure DispersionTaylorCfg where
  betas_psn_per_m : List ℝ

/-- `cpa_sim.models.config.DispersionInterpolationCfg`. -/
structure DispersionInterpolationCfg where
  effective_indices : List ℝ
  lambdas_nm : List ℝ
  central_wavelength_nm : ℝ

/-- `cpa_sim.models.config.DispersionCfg`: tagged union. -/
inductive DispersionCfg
  | taylor (cfg : DispersionTaylorCfg)
  | interpolation (cfg : DispersionInterpolationCfg)

/-- `cpa_sim.models.config.RamanCfg.model`. -/
inductive RamanModel
  | blowwood
  | linagrawal
  | hollenbeck

/-- `cpa_sim.models.config.RamanCfg`. -/
structure RamanCfg where
  model : RamanModel

/-- `cpa_sim.models.config.FiberPhysicsCfg`.  The source's only field
validator on this record checks that `loss_db_per_m` is finite
(`math.isfinite`), which is vacuous in the exact-real embedding; no other
construction-time validation exists in the source. -/
structure FiberPhysicsCfg where
  length_m : ℝ := 1.0
  loss_db_per_m : ℝ := 0.0
  gamma_1_per_w_m : Option ℝ := none
  n2_m2_per_w : Option ℝ := none
  aeff_m2 : Option ℝ := none
  dispersion : DispersionCfg := .taylor { betas_psn_per_m := [0.0] }
  raman : Option RamanCfg := none
  self_steepening : Bool := false
  validate_physical_units : Bool := true

/-- `cpa_sim.models.config.ToyPhaseNumericsCfg`. -/
structure ToyPhaseNumericsCfg where
  nonlinear_phase_rad : ℝ := 0.0

/-- `cpa_sim.models.config.FiberNumericsCfg`.  Only the `toy_phase` backend is
embedded; the `wust_gnlse` variant delegates propagation to the external
`gnlse` solver package, which the spec places out of scope ("the full
nonlinear-Schrödinger-equation solver backend" is an external collaborator). -/
inductive FiberNumericsCfg
  | toy_phase (cfg : ToyPhaseNumericsCfg)

/-- `cpa_sim.models.config.FiberCfg`. -/
structure FiberCfg where
  name : String := "fiber"
  physics : FiberPhysicsCfg := {}
  numerics : FiberNumericsCfg := .toy_phase {}

/-- `cpa_sim.models.config.SimpleGainCfg`.  The source record has no field
validator: any real `gain_linear` (negative included) constructs successfully. -/
structure SimpleGainCfg where
  name : String := "amp"
  gain_linear : ℝ := 1.0

/-- `cpa_sim.models.config.FiberAmpWrapCfg` (validator: `power_out_w > 0`). -/
structure FiberAmpWrapCfg where
  name : String := "amp"
  physics : FiberPhysicsCfg := {}
  numerics : FiberNumericsCfg := .toy_phase {}
  power_out_w : ℝ

/-- `cpa_sim.models.config.ToyFiberAmpCfg`.
Modelled from the spec: the record itself is not present under `src/` (only its
consumer `ToyFiberAmpStage` and its tests are); fields follow the attribute
reads in `toy_fiber_amp.py` and the spec's §4.2 constraints ("toy split-step
amplifier length must be > 0, step count ≥ 1", gain either direct `gain_db` or
back-solved from `amp_power_w`). -/
structure ToyFiberAmpCfg where
  name : String := "amp"
  length_m : ℝ := 1.0
  n_steps : ℕ := 1
  gain_db : Option ℝ := none
  amp_power_w : Option ℝ := none
  loss_db_per_m : ℝ := 0.0
  beta2_s2_per_m : ℝ := 0.0
  gamma_w_inv_m : ℝ := 0.0

/-- `cpa_sim.models.config.LaserGenCfg`. -/
structure LaserGenCfg where
  name : String := "laser_init"
  spec : LaserSpec := {}

/-- `cpa_sim.models.config.MetricsCfg`. -/
structure MetricsCfg where
  name : String := "metrics"

/-- `cpa_sim.models.config.RuntimeCfg`. -/
structure RuntimeCfg where
  seed : ℤ := 0

/-- `cpa_sim.models.config.PipelineStageCfg`: the tagged union of
configurable middle-stage configs dispatched by `_build_configurable_stages`. -/
inductive PipelineStageCfg
  | free_space (cfg : FreeSpaceCfg)
  | fiber (cfg : FiberCfg)
  | simple_gain (cfg : SimpleGainCfg)
  | fiber_amp_wrap (cfg : FiberAmpWrapCfg)

/-- `cpa_sim.models.config.PipelineConfig`. -/
structure PipelineConfig where
  runtime : RuntimeCfg := {}
  laser_gen : LaserGenCfg := {}
  stretcher : FreeSpaceCfg := .phase_only_dispersion { name := "stretcher" }
  fiber : FiberCfg := {}
  amp : PipelineStageCfg := .simple_gain {}
  compressor : FreeSpaceCfg := .treacy_grating_pair { name := "compressor" }
  stages : Option (List PipelineStageCfg) := none
  metrics : MetricsCfg := {}

/-- `cpa_sim.models.state.PulseGrid` and `PulseState` merged: the grid axes and
the four pulse arrays over a common sample count `n`. -/
structure PulseData (n : ℕ) where
  t : ZMod n → ℝ
  w : ZMod n → ℝ
  dt : ℝ
  dw : ℝ
  center_wavelength_nm : ℝ
  field_t : ZMod n → ℂ
  field_w : ZMod n → ℂ
  intensity_t : ZMod n → ℝ
  spectrum_w : ZMod n → ℝ

/-- A pulse together with its (positive) sample count. -/
structure PulseSig where
  n : ℕ
  hn : NeZero n
  data : PulseData n

attribute [instance] PulseSig.hn

/-- `cpa_sim.models.state.BeamState`. -/
structure BeamState where
  radius_mm : ℝ
  m2 : ℝ

/-- `cpa_sim.models.state.RunProvenance`. -/
structure RunProvenance where
  run_id : String
  created_utc : String
  seed : ℤ
  config_hash : String
  policy_hash : Option String := none
deriving DecidableEq

/-- The `meta["reference"]` traces recorded by the laser-generation stage. -/
structure RefTraces where
  n : ℕ
  intensity_t : ZMod n → ℝ
  spectrum_w : ZMod n → ℝ

/-- `cpa_sim.models.observables.ObservableMeasurement`. -/
structure ObservableMeasurement where
  name : String
  value : ℝ
  unit : String
  method : String
  assumptions : List String

/-- `cpa_sim.models.observables.ObservableContract`. -/
structure ObservableContract where
  measurements : List ObservableMeasurement

/-- The `LaserState.meta` dictionary, embedded as a record of the keys the
source reads or writes (`provenance`, `reference`, `rep_rate_mhz`, the
`laser.*` resolved quantities, the fiber backends' `pulse` units marker, the
metrics stage's `observable_contract`, and `run_pipeline`'s trailing
`config_hash` / `seed` / `run_id` entries). -/
structure RunMeta where
  provenance : Option RunProvenance := none
  reference : Option RefTraces := none
  rep_rate_mhz : Option ℝ := none
  laser_intensity_fwhm_fs : Option ℝ := none
  laser_peak_power_w : Option ℝ := none
  laser_intensity_autocorr_fwhm_fs_input : Option ℝ := none
  laser_pulse_energy_j : Option ℝ := none
  laser_avg_power_w : Option ℝ := none
  pulse_units_set : Bool := false
  observable_contract : Option ObservableContract := none
  config_hash : Option String := none
  seed : Option ℤ := none
  run_id : Option String := none

/-- `cpa_sim.models.state.LaserState`.  The `metrics` and `artifacts`
dictionaries are embedded as insertion-ordered association lists, matching
Python `dict` semantics. -/
structure LaserState where
  pulse : PulseSig
  beam : BeamState
  meta : RunMeta := {}
  metrics : List (String × ℝ) := []
  artifacts : List (String × String) := []

/-- `phys_pipeline.types.StageResult` specialised to `LaserState`. -/
structure StageResultS where
  state : LaserState
  metrics : List (String × ℝ)

/-- Python-`dict` single-key upsert: replace in place if the key exists,
else append. -/
def dictUpsertOne {α : Type} (m : List (String × α)) (k : String) (v : α) :
    List (String × α) :=
  if m.any (fun p => p.1 == k) then
    m.map (fun p => if p.1 == k then (k, v) else p)
  else
    m ++ [(k, v)]

/-- Python `dict.update`: left-to-right upsert of every pair of `upd`. -/
def dictUpdate {α : Type} (m upd : List (String × α)) : List (String × α) :=
  upd.foldl (fun acc p => dictUpsertOne acc p.1 p.2) m

/-- Python `dict.get`. -/
def dlookup {α : Type} (m : List (String × α)) (k : String) : Option α :=
  (m.find? (fun p => p.1 == k)).map Prod.snd

/-- The distinct `ValueError`s raised by the embedded code paths, carrying the
quantities the source interpolates into its messages. -/
inductive SimError
  | asinDomain (context : String) (arg : ℝ)
  | treacyGddRadical (val line_density_lpmm incidence_angle_deg wavelength_nm : ℝ)
      (diffraction_order : ℤ)
  | treacyTodDenominator (val line_density_lpmm incidence_angle_deg wavelength_nm : ℝ)
  | toyAmpInputPowerNotPositive
  | toyAmpNonPositiveNetGain
  | toyAmpMissingGainSpec
  | missingRepRate (stage : String)
  | nonPositiveRepRate (stage : String)
  | fiberNonUniformGrid
  | fiberAmpWrapNonPositiveInputPower
  | fiberAmpWrapNonPositiveLength
  | fiberAmpWrapNonPositiveNetGain
  | missingGammaSpec
  | peakPowerUnresolvable
  | nonPositiveWidth
  | laserDegenerateSampling

/-! ## Pulse width / power resolution (src/cpa_sim/physics/pulse_resolve.py) -/

/-- `math.acosh` (inverse hyperbolic cosine), absent from Mathlib's real
special functions; `acosh x = log (x + sqrt (x² - 1))`. -/
noncomputable def npacosh (x : ℝ) : ℝ := Real.log (x + Real.sqrt (x ^ 2 - 1))

/-- `_GAUSSIAN_AUTOCORR_DECONV_FACTOR = math.sqrt(2.0)`. -/
noncomputable def GAUSSIAN_AUTOCORR_DECONV_FACTOR : ℝ := Real.sqrt 2.0

/-- `_SECH2_AUTOCORR_WIDTH_MULTIPLIER = 0.648`. -/
def SECH2_AUTOCORR_WIDTH_MULTIPLIER : ℝ := 0.648

/-- `_SHAPE_TO_AUTOCORR_DECONV` (total over the two shapes `PulseSpec` admits;
the source's `KeyError → ValueError` branch is unreachable from the typed
`PulseSpec.shape`). -/
noncomputable def SHAPE_TO_AUTOCORR_DECONV : PulseShape → ℝ
  | .gaussian => GAUSSIAN_AUTOCORR_DECONV_FACTOR
  | .sech2 => 1.0 / SECH2_AUTOCORR_WIDTH_MULTIPLIER

/-- `cpa_sim.physics.pulse_resolve.rep_rate_hz`. -/
def rep_rate_hz (rep_rate_mhz : ℝ) : ℝ := rep_rate_mhz * 1e6

/-- `cpa_sim.physics.pulse_resolve.resolve_intensity_fwhm_fs`. -/
noncomputable def resolve_intensity_fwhm_fs (spec : PulseSpec) : ℝ :=
  match spec.intensity_autocorr_fwhm_fs, spec.width_fs_set with
  | some autocorr_fs, false => autocorr_fs / SHAPE_TO_AUTOCORR_DECONV spec.shape
  | _, _ => spec.width_fs

/-- `cpa_sim.physics.pulse_resolve.resolve_pulse_energy_j`. -/
noncomputable def resolve_pulse_energy_j (spec : PulseSpec) : Option ℝ :=
  match spec.pulse_energy_j with
  | some e => some e
  | none =>
    match spec.avg_power_w with
    | some p => some (p / rep_rate_hz spec.rep_rate_mhz)
    | none => none

/-- `cpa_sim.physics.pulse_resolve.peak_power_w_from_energy_j`. -/
noncomputable def peak_power_w_from_energy_j (energy_j width_fs : ℝ) (shape : PulseShape) :
    Except SimError ℝ :=
  let width_s := width_fs * 1e-15
  if width_s ≤ 0.0 then .error .nonPositiveWidth
  else
    match shape with
    | .gaussian =>
        .ok (energy_j * (2.0 * Real.sqrt (Real.log 2.0)) / (width_s * Real.sqrt Real.pi))
    | .sech2 => .ok (energy_j * npacosh (Real.sqrt 2.0) / width_s)

/-- `cpa_sim.physics.pulse_resolve.resolve_peak_power_w`. -/
noncomputable def resolve_peak_power_w (spec : PulseSpec) (width_fs : ℝ) : Except SimError ℝ :=
  match spec.peak_power_w with
  | some p => .ok p
  | none =>
    match resolve_pulse_energy_j spec with
    | some energy_j => peak_power_w_from_energy_j energy_j width_fs spec.shape
    | none =>
      if spec.amplitude_set then .ok (spec.amplitude ^ 2)
      else if spec.amplitude = 1.0 then .ok 1.0
      else .error .peakPowerUnresolvable

/-! ## Treacy grating stage (src/cpa_sim/stages/free_space/treacy_grating.py) -/

/-- `C_UM_PER_FS = 0.299792458`. -/
def C_UM_PER_FS : ℝ := 0.299792458

/-- `_phase_from_dispersion`, pointwise in `ω`. -/
noncomputable def phase_from_dispersion (omega omega0 gdd_fs2 tod_fs3 : ℝ) : ℝ :=
  -0.5 * gdd_fs2 * (omega - omega0) ^ 2 - (1.0 / 6.0) * tod_fs3 * (omega - omega0) ^ 3

/-- `_safe_asin`: explicit domain-checked `math.asin`. -/
noncomputable def safe_asin (arg : ℝ) (context : String) : Except SimError ℝ :=
  if arg < -1.0 ∨ arg > 1.0 then .error (.asinDomain context arg)
  else .ok (Real.arcsin arg)

/-- The dictionary returned by `_compute_treacy_metrics`, as a record. -/
structure TreacyMetrics where
  gdd_fs2 : ℝ
  tod_fs3 : ℝ
  line_density_lpmm : ℝ
  period_um : ℝ
  wavelength_nm : ℝ
  wavelength_um : ℝ
  incidence_angle_deg : ℝ
  incidence_angle_rad : ℝ
  littrow_angle_deg : ℝ
  diffraction_angle_deg : ℝ
  omega0_rad_per_fs : ℝ
  n_passes : ℝ
  diffraction_order : ℝ

/-- `_compute_treacy_metrics`. -/
noncomputable def compute_treacy_metrics (cfg : TreacyGratingPairCfg) :
    Except SimError TreacyMetrics :=
  let lambda_um := cfg.wavelength_nm * 1e-3
  let d_um := 1000.0 / cfg.line_density_lpmm
  let theta_i_rad := cfg.incidence_angle_deg * Real.pi / 180.0
  let m : ℝ := (cfg.diffraction_order : ℝ)
  let n_passes : ℝ := (cfg.n_passes : ℝ)
  let L_um := cfg.separation_um
  let littrow_arg := lambda_um / (2.0 * d_um)
  match safe_asin littrow_arg "littrow angle" with
  | .error e => .error e
  | .ok theta_l_rad =>
    let diff_arg := -m * (lambda_um / d_um) - Real.sin theta_i_rad
    match safe_asin diff_arg "diffraction angle" with
    | .error e => .error e
    | .ok theta_d_rad =>
      let gdd_bracket := 1.0 - (-m * lambda_um / d_um - Real.sin theta_i_rad) ^ 2
      if gdd_bracket ≤ 0.0 then
        .error (.treacyGddRadical gdd_bracket cfg.line_density_lpmm cfg.incidence_angle_deg
          cfg.wavelength_nm cfg.diffraction_order)
      else
        let gdd := -((n_passes * m ^ 2 * L_um * lambda_um ^ 3)
            / (2.0 * Real.pi * C_UM_PER_FS ^ 2 * d_um ^ 2)) * gdd_bracket ^ (-(1.5 : ℝ))
        let tod_den := 1.0 - ((lambda_um / d_um) - Real.sin theta_i_rad) ^ 2
        if tod_den ≤ 0.0 then
          .error (.treacyTodDenominator tod_den cfg.line_density_lpmm cfg.incidence_angle_deg
            cfg.wavelength_nm)
        else
          let tod_num := 1.0 + (lambda_um / d_um) * Real.sin theta_i_rad
            - Real.sin theta_i_rad ^ 2
          let tod := -((3.0 * lambda_um) / (2.0 * Real.pi * C_UM_PER_FS))
            * (tod_num / tod_den) * gdd
          let omega0_rad_per_fs := 2.0 * Real.pi * C_UM_PER_FS / lambda_um
          let out_gdd := cfg.override_gdd_fs2.getD gdd
          let computed_tod := if cfg.include_tod then tod else 0.0
          let out_tod := cfg.override_tod_fs3.getD computed_tod
          .ok
            { gdd_fs2 := out_gdd
              tod_fs3 := out_tod
              line_density_lpmm := cfg.line_density_lpmm
              period_um := d_um
              wavelength_nm := cfg.wavelength_nm
              wavelength_um := lambda_um
              incidence_angle_deg := cfg.incidence_angle_deg
              incidence_angle_rad := theta_i_rad
              littrow_angle_deg := theta_l_rad * 180.0 / Real.pi
              diffraction_angle_deg := theta_d_rad * 180.0 / Real.pi
              omega0_rad_per_fs := omega0_rad_per_fs
              n_passes := n_passes
              diffraction_order := m }

/-- The key/value pairs of the `_compute_treacy_metrics` dictionary, in its
insertion order, prefixed with the stage name as in
`TreacyGratingStage.process`. -/
def treacyMetricPairs (name : String) (tm : TreacyMetrics) : List (String × ℝ) :=
  [ (name ++ ".gdd_fs2", tm.gdd_fs2)
  , (name ++ ".tod_fs3", tm.tod_fs3)
  , (name ++ ".line_density_lpmm", tm.line_density_lpmm)
  , (name ++ ".period_um", tm.period_um)
  , (name ++ ".wavelength_nm", tm.wavelength_nm)
  , (name ++ ".wavelength_um", tm.wavelength_um)
  , (name ++ ".incidence_angle_deg", tm.incidence_angle_deg)
  , (name ++ ".incidence_angle_rad", tm.incidence_angle_rad)
  , (name ++ ".littrow_angle_deg", tm.littrow_angle_deg)
  , (name ++ ".diffraction_angle_deg", tm.diffraction_angle_deg)
  , (name ++ ".omega0_rad_per_fs", tm.omega0_rad_per_fs)
  , (name ++ ".n_passes", tm.n_passes)
  , (name ++ ".diffraction_order", tm.diffraction_order) ]

/-- `np.mean` of a real array. -/
noncomputable def npMean {n : ℕ} [NeZero n] (f : ZMod n → ℝ) : ℝ :=
  (∑ k : ZMod n, f k) / n

/-- `float(np.sum(pulse.intensity_t) * pulse.grid.dt)`. -/
noncomputable def energy_au_of {n : ℕ} [NeZero n] (p : PulseData n) : ℝ :=
  (∑ j : ZMod n, p.intensity_t j) * p.dt

/-- The `apply_to_pulse` block of `TreacyGratingStage.process`:
`field_w *= exp(1j·φ)`, `field_t = fftshift(ifft(ifftshift(field_w)))`, and the
two derived magnitude-squared arrays are recomputed. -/
noncomputable def applyDispersionPhase {n : ℕ} [NeZero n] (gdd_fs2 tod_fs3 w0 : ℝ)
    (p : PulseData n) : PulseData n :=
  let field_w := fun k =>
    p.field_w k * Complex.exp (Complex.I * (phase_from_dispersion (p.w k) w0 gdd_fs2 tod_fs3 : ℝ))
  let field_t := npifft_centered field_w
  { p with
    field_w := field_w
    field_t := field_t
    intensity_t := fun j => Complex.abs (field_t j) ^ 2
    spectrum_w := fun k => Complex.abs (field_w k) ^ 2 }

/-- `TreacyGratingStage.process`. -/
noncomputable def treacyStageProcess (cfg : FreeSpaceCfg) (st : LaserState) :
    Except SimError StageResultS :=
  match cfg with
  | .treacy_grating_pair tc =>
    match compute_treacy_metrics tc with
    | .error e => .error e
    | .ok tm =>
      let pulseData' :=
        if tc.apply_to_pulse then
          applyDispersionPhase tm.gdd_fs2 tm.tod_fs3 tm.omega0_rad_per_fs st.pulse.data
        else st.pulse.data
      let stage_metrics :=
        [ (tc.name ++ ".energy_au", energy_au_of pulseData')
        , (tc.name ++ ".apply_to_pulse", if tc.apply_to_pulse then (1.0 : ℝ) else 0.0) ]
        ++ treacyMetricPairs tc.name tm
      let out : LaserState :=
        { st with
          pulse := ⟨st.pulse.n, st.pulse.hn, pulseData'⟩
          metrics := dictUpdate st.metrics stage_metrics }
      .ok { state := out, metrics := stage_metrics }
  | .phase_only_dispersion pc =>
    let w0 := npMean st.pulse.data.w
    let pulseData' :=
      if pc.apply_to_pulse then
        applyDispersionPhase pc.gdd_fs2 pc.tod_fs3 w0 st.pulse.data
      else st.pulse.data
    let stage_metrics :=
      [ (pc.name ++ ".energy_au", energy_au_of pulseData')
      , (pc.name ++ ".apply_to_pulse", if pc.apply_to_pulse then (1.0 : ℝ) else 0.0)
      , (pc.name ++ ".gdd_fs2", pc.gdd_fs2)
      , (pc.name ++ ".tod_fs3", pc.tod_fs3)
      , (pc.name ++ ".omega0_rad_per_fs", w0) ]
    let out : LaserState :=
      { st with
        pulse := ⟨st.pulse.n, st.pulse.hn, pulseData'⟩
        metrics := dictUpdate st.metrics stage_metrics }
    .ok { state := out, metrics := stage_metrics }

/-! ## Policy bag and stage plot artifacts (src/cpa_sim/utils.py) -/

/-- The policy keys consulted by `cpa_sim.utils` (`cpa.emit_stage_plots`,
`emit_stage_plots`, `cpa.stage_plot_dir`). -/
structure PolicyBag where
  emit_stage_plots : Bool := false
  cpa_emit_stage_plots : Bool := false
  cpa_stage_plot_dir : Option String := none

/-- `maybe_emit_stage_plots`: the artifact entries returned to the caller.
The matplotlib figure rendering and file writes are I/O side effects outside
the embedding (and the import-failure fallback that returns `{}` is not
modelled); only the returned key/path pairs are. -/
def maybe_emit_stage_plots (stage_name : String) (policy : Option PolicyBag) :
    List (String × String) :=
  match policy with
  | none => []
  | some p =>
    if p.cpa_emit_stage_plots || p.emit_stage_plots then
      let out_dir := p.cpa_stage_plot_dir.getD "artifacts/stage-plots"
      [ (stage_name ++ ".plot_time_intensity",
          out_dir ++ "/" ++ stage_name ++ "_time_intensity.svg")
      , (stage_name ++ ".plot_spectrum", out_dir ++ "/" ++ stage_name ++ "_spectrum.svg") ]
    else []

/-! ## Simple gain stage (src/cpa_sim/stages/amp/simple_gain.py, utils.py) -/

/-- `cpa_sim.stages.amp.utils.field_gain_from_power_gain`:
`sqrt(max(gain_linear, 0.0))`. -/
noncomputable def field_gain_from_power_gain (gain_linear : ℝ) : ℝ :=
  Real.sqrt (max gain_linear 0.0)

/-- `np.max` of a real array (first the value; `npArgmaxN` below embeds the
index form). -/
noncomputable def npMax {n : ℕ} [NeZero n] (f : ZMod n → ℝ) : ℝ :=
  Finset.univ.sup' Finset.univ_nonempty f

/-- `SimpleGainStage.process`.  Total: the stage has no failure path. -/
noncomputable def simpleGainProcess (cfg : SimpleGainCfg) (st : LaserState) : StageResultS :=
  let p := st.pulse.data
  let gain := field_gain_from_power_gain cfg.gain_linear
  let field_t := fun j => p.field_t j * (gain : ℂ)
  let field_w := npfft_centered field_t
  let p' : PulseData st.pulse.n :=
    { p with
      field_t := field_t
      field_w := field_w
      intensity_t := fun j => Complex.abs (field_t j) ^ 2
      spectrum_w := fun k => Complex.abs (field_w k) ^ 2 }
  let stage_metrics :=
    [ (cfg.name ++ ".gain_linear", cfg.gain_linear)
    , (cfg.name ++ ".energy_au", energy_au_of p') ]
  { state :=
      { st with
        pulse := ⟨st.pulse.n, st.pulse.hn, p'⟩
        metrics := dictUpdate st.metrics stage_metrics }
    metrics := stage_metrics }

/-! ## Toy split-step fiber amplifier (src/cpa_sim/stages/amp/toy_fiber_amp.py) -/

/-- `_DB_TO_NEPER_POWER = np.log(10.0) / 10.0`. -/
noncomputable def DB_TO_NEPER_POWER : ℝ := Real.log 10.0 / 10.0

/-- `_FS_TO_S = 1e-15`. -/
def FS_TO_S : ℝ := 1e-15

/-- `_energy_au`: `Σ|A(t)|²·dt`. -/
noncomputable def energy_au_field {n : ℕ} [NeZero n] (field_t : ZMod n → ℂ) (dt : ℝ) : ℝ :=
  (∑ j : ZMod n, Complex.abs (field_t j) ^ 2) * dt

/-- `_energy_j`: `Σ|A(t)|²·dt_fs·1e-15`. -/
noncomputable def energy_j_field {n : ℕ} [NeZero n] (field_t : ZMod n → ℂ) (dt_fs : ℝ) : ℝ :=
  (∑ j : ZMod n, Complex.abs (field_t j) ^ 2) * dt_fs * FS_TO_S

/-- `_power_gain_coeff_per_m`: `log(10^(gain_db/10)) / length_m`. -/
noncomputable def power_gain_coeff_per_m (gain_db length_m : ℝ) : ℝ :=
  Real.log ((10.0 : ℝ) ^ (gain_db / 10.0)) / length_m

/-- `_rms_bandwidth_rad_per_fs`. -/
noncomputable def rms_bandwidth_rad_per_fs {n : ℕ} [NeZero n] (w spectrum : ZMod n → ℝ) : ℝ :=
  let total := ∑ k : ZMod n, spectrum k
  if total ≤ 0.0 then 0.0
  else
    let mean := (∑ k : ZMod n, w k * spectrum k) / total
    Real.sqrt ((∑ k : ZMod n, (w k - mean) ^ 2 * spectrum k) / total)

/-- `_resolve_gain_db`. -/
noncomputable def resolve_gain_db (amp_power_w gain_db : Option ℝ)
    (power_in_avg_w loss_db_per_m length_m : ℝ) : Except SimError ℝ :=
  match amp_power_w with
  | some ap =>
    if power_in_avg_w ≤ 0.0 then .error .toyAmpInputPowerNotPositive
    else
      let net_gain := ap / power_in_avg_w
      if net_gain ≤ 0.0 then .error .toyAmpNonPositiveNetGain
      else .ok (10.0 * Real.logb 10 net_gain + loss_db_per_m * length_m)
  | none =>
    match gain_db with
    | none => .error .toyAmpMissingGainSpec
    | some g => .ok g

/-- `_rep_rate_hz` (shared shape of the toy-amp and fiber-amp-wrap helpers):
`meta['rep_rate_mhz']` must be present and positive. -/
noncomputable def meta_rep_rate_hz (meta : RunMeta) (stage : String) : Except SimError ℝ :=
  match meta.rep_rate_mhz with
  | none => .error (.missingRepRate stage)
  | some rep_rate_mhz =>
    let hz := rep_rate_mhz * 1e6
    if hz ≤ 0.0 then .error (.nonPositiveRepRate stage) else .ok hz

/-- `_half_linear_step`: frequency-domain multiply by the dispersion phase and
the scalar gain/loss amplitude factor between the two centred transforms. -/
noncomputable def half_linear_step {n : ℕ} [NeZero n] (field_t : ZMod n → ℂ)
    (linear_phase : ZMod n → ℂ) (amp_half_linear : ℝ) : ZMod n → ℂ :=
  npifft_centered (fun k => npfft_centered field_t k * linear_phase k * (amp_half_linear : ℂ))

/-- One iteration of the split-step loop in `ToyFiberAmpStage.process`:
half linear step, full Kerr phase `exp(i·γ·dz·|A|²)`, half linear step. -/
noncomputable def toy_split_step {n : ℕ} [NeZero n] (gamma_w_inv_m dz : ℝ)
    (linear_phase : ZMod n → ℂ) (amp_half_linear : ℝ) (field_t : ZMod n → ℂ) : ZMod n → ℂ :=
  let a := half_linear_step field_t linear_phase amp_half_linear
  let b := fun j =>
    a j * Complex.exp (Complex.I * ((gamma_w_inv_m * dz * Complex.abs (a j) ^ 2 : ℝ) : ℂ))
  half_linear_step b linear_phase amp_half_linear

/-- `ToyFiberAmpStage.process`. -/
noncomputable def toyFiberAmpProcess (cfg : ToyFiberAmpCfg) (policy : Option PolicyBag)
    (st : LaserState) : Except SimError StageResultS :=
  let p := st.pulse.data
  let energy_in_au := energy_au_field p.field_t p.dt
  let energy_in_j := energy_j_field p.field_t p.dt
  match meta_rep_rate_hz st.meta "ToyFiberAmpStage" with
  | .error e => .error e
  | .ok rr_hz =>
    let power_in_avg_w := energy_in_j * rr_hz
    let peak_in := npMax (fun j => Complex.abs (p.field_t j) ^ 2)
    let bandwidth_in :=
      rms_bandwidth_rad_per_fs p.w (fun k => Complex.abs (npfft_centered p.field_t k) ^ 2)
    let dz := cfg.length_m / (cfg.n_steps : ℝ)
    match resolve_gain_db cfg.amp_power_w cfg.gain_db power_in_avg_w cfg.loss_db_per_m
        cfg.length_m with
    | .error e => .error e
    | .ok gain_db_applied =>
      let g_power_per_m := power_gain_coeff_per_m gain_db_applied cfg.length_m
      let alpha_power_per_m := cfg.loss_db_per_m * DB_TO_NEPER_POWER
      let amp_half_linear := Real.exp (0.25 * (g_power_per_m - alpha_power_per_m) * dz)
      let linear_phase := fun k : ZMod st.pulse.n =>
        Complex.exp (Complex.I * ((0.5 * cfg.beta2_s2_per_m * p.w k ^ 2 * dz : ℝ) : ℂ))
      let evolved :=
        (toy_split_step cfg.gamma_w_inv_m dz linear_phase amp_half_linear)^[cfg.n_steps]
          p.field_t
      let field_w := npfft_centered evolved
      let p' : PulseData st.pulse.n :=
        { p with
          field_t := evolved
          field_w := field_w
          intensity_t := fun j => Complex.abs (evolved j) ^ 2
          spectrum_w := fun k => Complex.abs (field_w k) ^ 2 }
      let energy_out_au := energy_au_field p'.field_t p'.dt
      let energy_out_j := energy_j_field p'.field_t p'.dt
      let power_out_avg_w := energy_out_j * rr_hz
      let peak_out := npMax p'.intensity_t
      let bandwidth_out := rms_bandwidth_rad_per_fs p'.w p'.spectrum_w
      let b_integral_proxy := cfg.gamma_w_inv_m * cfg.length_m * peak_in
      let stage_metrics :=
        [ (cfg.name ++ ".gain_db", gain_db_applied)
        , (cfg.name ++ ".gain_db_applied", gain_db_applied)
        , (cfg.name ++ ".gain_linear", Real.exp (g_power_per_m * cfg.length_m))
        , (cfg.name ++ ".loss_db_per_m", cfg.loss_db_per_m)
        , (cfg.name ++ ".energy_in_au", energy_in_au)
        , (cfg.name ++ ".energy_out_au", energy_out_au)
        , (cfg.name ++ ".energy_in_j", energy_in_j)
        , (cfg.name ++ ".energy_out_j", energy_out_j)
        , (cfg.name ++ ".power_in_avg_w", power_in_avg_w)
        , (cfg.name ++ ".power_out_avg_w", power_out_avg_w)
        , (cfg.name ++ ".peak_power_in_au", peak_in)
        , (cfg.name ++ ".peak_power_out_au", peak_out)
        , (cfg.name ++ ".bandwidth_in_rad_per_fs", bandwidth_in)
        , (cfg.name ++ ".bandwidth_out_rad_per_fs", bandwidth_out)
        , (cfg.name ++ ".b_integral_proxy_rad", b_integral_proxy) ]
      .ok
        { state :=
            { st with
              pulse := ⟨st.pulse.n, st.pulse.hn, p'⟩
              metrics := dictUpdate st.metrics stage_metrics
              artifacts := dictUpdate st.artifacts (maybe_emit_stage_plots cfg.name policy) }
          metrics := stage_metrics }

/-! ## Fiber stage, toy-phase backend (src/cpa_sim/stages/fiber/) -/

/-- `assert_uniform_spacing` (rtol 1e-6, atol 1e-12): every consecutive
difference of the time axis is `np.allclose` to the first one. -/
def uniformSpacing {n : ℕ} (t : ZMod n → ℝ) : Prop :=
  n < 2 ∨ ∀ i : ℕ, i + 2 ≤ n →
    |(t ((i + 1 : ℕ) : ZMod n) - t ((i : ℕ) : ZMod n)) - (t (1 : ZMod n) - t (0 : ZMod n))|
      ≤ 1e-12 + 1e-6 * |t (1 : ZMod n) - t (0 : ZMod n)|

/-- `cpa_sim.stages.fiber.backends.toy_phase.run_toy_phase`. -/
noncomputable def run_toy_phase (stage_name : String) (numerics : ToyPhaseNumericsCfg)
    (st : LaserState) : StageResultS :=
  let p := st.pulse.data
  let intensity := fun j => Complex.abs (p.field_t j) ^ 2
  let phase := fun j =>
    numerics.nonlinear_phase_rad * intensity j / max (npMax intensity) 1e-12
  let field_t := fun j => p.field_t j * Complex.exp (Complex.I * ((phase j : ℝ) : ℂ))
  let field_w := npfft_centered field_t
  let p' : PulseData st.pulse.n :=
    { p with
      field_t := field_t
      field_w := field_w
      intensity_t := fun j => Complex.abs (field_t j) ^ 2
      spectrum_w := fun k => Complex.abs (field_w k) ^ 2 }
  let stage_metrics := [ (stage_name ++ ".b_integral_proxy_rad", npMax phase) ]
  { state :=
      { st with
        pulse := ⟨st.pulse.n, st.pulse.hn, p'⟩
        meta := { st.meta with pulse_units_set := true }
        metrics := dictUpdate st.metrics stage_metrics }
    metrics := stage_metrics }

/-- `FiberStage.process` (toy-phase backend; the `wust_gnlse` branch delegates
to the external solver and is out of scope). -/
noncomputable def fiberStageProcess (cfg : FiberCfg) (policy : Option PolicyBag)
    (st : LaserState) : Except SimError StageResultS :=
  if uniformSpacing st.pulse.data.t then
    match cfg.numerics with
    | .toy_phase num =>
      let r := run_toy_phase cfg.name num st
      .ok
        { r with
          state :=
            { r.state with
              artifacts :=
                dictUpdate r.state.artifacts (maybe_emit_stage_plots cfg.name policy) } }
  else .error .fiberNonUniformGrid

/-! ## Fiber amp wrapper (src/cpa_sim/stages/amp/fiber_amp_wrap.py) -/

/-- The delegation-and-report tail of `FiberAmpWrapStage.process`: run the
wrapped `FiberStage` and assemble the wrapper's metric report from the derived
gain/loss quantities. -/
noncomputable def fiberAmpWrapTail (cfg : FiberAmpWrapCfg) (policy : Option PolicyBag)
    (rr_hz energy_in_j power_in_avg_w g_net loss_eff_db_per_m loss_total_db_per_m : ℝ)
    (wrapped_cfg : FiberCfg) (st : LaserState) : Except SimError StageResultS :=
  match fiberStageProcess wrapped_cfg policy st with
  | .error e => .error e
  | .ok fiber_result =>
    let energy_out_j :=
      energy_j_field fiber_result.state.pulse.data.field_t
        fiber_result.state.pulse.data.dt
    let power_out_avg_w := energy_out_j * rr_hz
    let stage_metrics :=
      [ (cfg.name ++ ".power_out_target_w", cfg.power_out_w)
      , (cfg.name ++ ".power_in_avg_w", power_in_avg_w)
      , (cfg.name ++ ".power_out_avg_w", power_out_avg_w)
      , (cfg.name ++ ".energy_in_j", energy_in_j)
      , (cfg.name ++ ".energy_out_j", energy_out_j)
      , (cfg.name ++ ".derived_gain_db", 10.0 * Real.logb 10 g_net)
      , (cfg.name ++ ".derived_loss_eff_db_per_m", loss_eff_db_per_m)
      , (cfg.name ++ ".derived_loss_total_db_per_m", loss_total_db_per_m) ]
    .ok
      { state :=
          { fiber_result.state with
            metrics := dictUpdate fiber_result.state.metrics stage_metrics }
        metrics := dictUpdate fiber_result.metrics stage_metrics }

/-- `FiberAmpWrapStage.process`. -/
noncomputable def fiberAmpWrapProcess (cfg : FiberAmpWrapCfg) (policy : Option PolicyBag)
    (st : LaserState) : Except SimError StageResultS :=
  match meta_rep_rate_hz st.meta "FiberAmpWrapStage" with
  | .error e => .error e
  | .ok rr_hz =>
    let energy_in_j := energy_j_field st.pulse.data.field_t st.pulse.data.dt
    let power_in_avg_w := energy_in_j * rr_hz
    if power_in_avg_w ≤ 0.0 then .error .fiberAmpWrapNonPositiveInputPower
    else if cfg.physics.length_m ≤ 0.0 then .error .fiberAmpWrapNonPositiveLength
    else
      let g_net := cfg.power_out_w / power_in_avg_w
      if g_net ≤ 0.0 then .error .fiberAmpWrapNonPositiveNetGain
      else
        let intrinsic_loss_db_per_m := cfg.physics.loss_db_per_m
        let target_total_loss_db_per_m :=
          -(10.0 / cfg.physics.length_m) * Real.logb 10 g_net
        let loss_eff_db_per_m := target_total_loss_db_per_m - intrinsic_loss_db_per_m
        let loss_total_db_per_m := intrinsic_loss_db_per_m + loss_eff_db_per_m
        let wrapped_cfg : FiberCfg :=
          { name := cfg.name
            physics := { cfg.physics with loss_db_per_m := loss_total_db_per_m }
            numerics := cfg.numerics }
        fiberAmpWrapTail cfg policy rr_hz energy_in_j power_in_avg_w g_net loss_eff_db_per_m
          loss_total_db_per_m wrapped_cfg st

/-! ## Metrics engine (src/cpa_sim/metrics.py, src/cpa_sim/stages/metrics/standard.py) -/

/-- `cpa_sim.metrics.normalized_cross_correlation` for same-shape arrays:
cosine similarity clipped to `[0, 1]`. -/
noncomputable def normalized_cross_correlation {n : ℕ} [NeZero n]
    (reference candidate : ZMod n → ℝ) : ℝ :=
  let ref_norm := Real.sqrt (∑ j : ZMod n, reference j ^ 2)
  let cur_norm := Real.sqrt (∑ j : ZMod n, candidate j ^ 2)
  if ref_norm ≤ 0.0 ∨ cur_norm ≤ 0.0 then 0.0
  else
    min (max ((∑ j : ZMod n, reference j * candidate j) / (ref_norm * cur_norm)) 0.0) 1.0

/-- `cpa_sim.metrics.amplification_ratio`. -/
noncomputable def amplification_ratio (energy_out energy_in : ℝ) : ℝ :=
  if energy_in ≤ 0.0 then 0.0 else energy_out / energy_in

/-- `_interp_crossing`. -/
noncomputable def interp_crossing (x0 x1 y0 y1 target : ℝ) : ℝ :=
  if y1 = y0 then x0 else x0 + (target - y0) * (x1 - x0) / (y1 - y0)

/-- `np.argmax` over the first `size` entries of a ℕ-indexed array: the first
index attaining the maximum. -/
noncomputable def npArgmaxN (size : ℕ) (f : ℕ → ℝ) : ℕ :=
  (((List.range size).find? fun i => decide (∀ j, j < size → f j ≤ f i)).getD 0)

/-- `np.max` over the first `size` entries of a ℕ-indexed array. -/
noncomputable def npMaxN (size : ℕ) (f : ℕ → ℝ) : ℝ := f (npArgmaxN size f)

/-- The descending left-crossing scan of `_interpolated_fwhm_fs`
(`for idx in range(peak_idx, 0, -1)` with condition
`intensity[idx-1] < half <= intensity[idx]`). -/
noncomputable def fwhmLeftCross (peak_idx : ℕ) (intensity : ℕ → ℝ) (half : ℝ) : Option ℕ :=
  ((List.range peak_idx).map fun i => peak_idx - i).find? fun idx =>
    decide (intensity (idx - 1) < half ∧ half ≤ intensity idx)

/-- The ascending right-crossing scan of `_interpolated_fwhm_fs`
(`for idx in range(peak_idx, size - 1)` with condition
`intensity[idx] >= half > intensity[idx+1]`). -/
noncomputable def fwhmRightCross (peak_idx size : ℕ) (intensity : ℕ → ℝ) (half : ℝ) :
    Option ℕ :=
  ((List.range (size - 1 - peak_idx)).map fun i => peak_idx + i).find? fun idx =>
    decide (half ≤ intensity idx ∧ intensity (idx + 1) < half)

/-- `_interpolated_fwhm_fs` over ℕ-indexed arrays of length `size` (used both
for the time grid and for the autocorrelation lag axis). -/
noncomputable def interpolated_fwhm_fs (size : ℕ) (t intensity : ℕ → ℝ) (peak : ℝ) : ℝ :=
  if peak ≤ 0.0 ∨ size < 2 then 0.0
  else
    let peak_idx := npArgmaxN size intensity
    let half := peak / 2.0
    match fwhmLeftCross peak_idx intensity half, fwhmRightCross peak_idx size intensity half with
    | some l, some r =>
      let t_left := interp_crossing (t (l - 1)) (t l) (intensity (l - 1)) (intensity l) half
      let t_right :=
        interp_crossing (t r) (t (r + 1)) (intensity r) (intensity (r + 1)) half
      t_right - t_left
    | _, _ => 0.0

/-- `np.correlate(a, a, mode="full")` of a length-`size` real array:
`out[k] = Σ_i a[i]·a[i + (size-1) - k]` over in-range indices, `k < 2·size-1`. -/
noncomputable def npCorrelateFull (size : ℕ) (a : ℕ → ℝ) : ℕ → ℝ :=
  fun k => ∑ i ∈ Finset.range size,
    if k ≤ i + (size - 1) ∧ i + (size - 1) - k < size then a i * a (i + (size - 1) - k)
    else 0.0

/-- `_autocorrelation_fwhm_fs`. -/
noncomputable def autocorrelation_fwhm_fs (size : ℕ) (t intensity : ℕ → ℝ) : ℝ :=
  if size < 2 ∨ ¬(∃ j, j < size ∧ 0.0 < intensity j) then 0.0
  else
    let dt := (∑ i ∈ Finset.range (size - 1), (t (i + 1) - t i)) / ((size : ℝ) - 1)
    let centered := fun i => max (intensity i) 0.0
    let autocorr := npCorrelateFull size centered
    let ac_size := 2 * size - 1
    let lags : ℕ → ℝ := fun k => ((k : ℝ) - ((size : ℝ) - 1)) * dt
    let peak := npMaxN ac_size autocorr
    interpolated_fwhm_fs ac_size lags autocorr peak

/-- Index transport along an equality of sample counts. -/
def castIdx {α : Type} {m n : ℕ} (h : m = n) (f : ZMod m → α) : ZMod n → α :=
  fun k => f (cast (congrArg ZMod h.symm) k)

/-- `StandardMetricsStage.process`.  Total: the stage has no failure path
(`normalized_cross_correlation`'s shape-mismatch `ValueError` is unreachable
because the stage guards on shape equality first). -/
noncomputable def standardMetricsProcess (cfg : MetricsCfg) (policy : Option PolicyBag)
    (st : LaserState) : StageResultS :=
  let n := st.pulse.n
  let p := st.pulse.data
  let energy := energy_au_of p
  let peak := npMax p.intensity_t
  let fwhm :=
    interpolated_fwhm_fs n (fun i => p.t (i : ZMod n)) (fun i => p.intensity_t (i : ZMod n)) peak
  let ac_fwhm :=
    autocorrelation_fwhm_fs n (fun i => p.t (i : ZMod n)) (fun i => p.intensity_t (i : ZMod n))
  let bandwidth :=
    Real.sqrt ((∑ k : ZMod n, p.w k ^ 2 * p.spectrum_w k) / ∑ k : ZMod n, p.spectrum_w k)
  let laser_energy := (dlookup st.metrics "laser.energy_au").getD 0.0
  let amp_ratio := amplification_ratio energy laser_energy
  let temporal_similarity :=
    match st.meta.reference with
    | none => 0.0
    | some ref =>
      if h : ref.n = n then normalized_cross_correlation (castIdx h ref.intensity_t) p.intensity_t
      else 0.0
  let spectral_similarity :=
    match st.meta.reference with
    | none => 0.0
    | some ref =>
      if h : ref.n = n then normalized_cross_correlation (castIdx h ref.spectrum_w) p.spectrum_w
      else 0.0
  let stage_metrics :=
    [ ("summary.energy_au", energy)
    , ("summary.peak_intensity_au", peak)
    , ("summary.fwhm_fs", fwhm)
    , ("summary.ac_fwhm_fs", ac_fwhm)
    , ("summary.bandwidth_rad_per_fs", bandwidth)
    , ("summary.amplification_ratio", amp_ratio)
    , ("summary.temporal_shape_similarity", temporal_similarity)
    , ("summary.spectral_shape_similarity", spectral_similarity) ]
  let contract : ObservableContract :=
    { measurements :=
        [ { name := "intensity_fwhm"
            value := fwhm
            unit := "fs"
            method := "half-maximum crossing with linear interpolation"
            assumptions := ["Intensity is derived from |field_t|^2 on PulseGrid.t."] }
        , { name := "intensity_autocorrelation_fwhm"
            value := ac_fwhm
            unit := "fs"
            method := "intensity autocorrelation via numpy.correlate + FWHM interpolation"
            assumptions := ["Background is negligible over the simulation window."] }
        , { name := "spectral_rms_width"
            value := bandwidth
            unit := "rad/fs"
            method := "sqrt(weighted second moment of spectrum on PulseGrid.w)"
            assumptions := ["Spectrum weights are non-negative and represent relative power."] } ] }
  { state :=
      { st with
        metrics := dictUpdate st.metrics stage_metrics
        meta := { st.meta with observable_contract := some contract }
        artifacts := dictUpdate st.artifacts (maybe_emit_stage_plots cfg.name policy) }
    metrics := stage_metrics }

/-! ## Analytic laser generator (src/cpa_sim/stages/laser_gen/analytic.py) -/

/-- `np.linspace(start, stop, num)`. -/
noncomputable def npLinspace (start stop : ℝ) (num : ℕ) : ZMod num → ℝ :=
  fun j => start + (j.val : ℝ) * ((stop - start) / ((num : ℝ) - 1))

/-- `np.fft.fftfreq(n, d)`: `[0, 1, …, ⌈n/2⌉-1, -⌊n/2⌋, …, -1] / (n·d)`. -/
noncomputable def npfftfreq (n : ℕ) (d : ℝ) : ZMod n → ℝ :=
  fun k => (if k.val < (n + 1) / 2 then (k.val : ℝ) else (k.val : ℝ) - n) / ((n : ℝ) * d)

/-- `AnalyticLaserGenStage.process`.  For `n_samples < 2` the source crashes
with an `IndexError` at `t[1]`; the embedding reports that degenerate sampling
as an explicit error value instead. -/
noncomputable def laserGenProcess (cfg : LaserGenCfg) (policy : Option PolicyBag)
    (st : LaserState) : Except SimError StageResultS :=
  let spec := cfg.spec
  if hn2 : spec.pulse.n_samples < 2 then .error .laserDegenerateSampling
  else
    haveI : NeZero spec.pulse.n_samples := ⟨by omega⟩
    let num := spec.pulse.n_samples
    let t := npLinspace (-0.5 * spec.pulse.time_window_fs) (0.5 * spec.pulse.time_window_fs) num
    let dt := t 1 - t 0
    let width_fs_eff := resolve_intensity_fwhm_fs spec.pulse
    match resolve_peak_power_w spec.pulse width_fs_eff with
    | .error e => .error e
    | .ok peak_power_w =>
      let i0 := peak_power_w
      let intensity_gen : ZMod num → ℝ :=
        match spec.pulse.shape with
        | .gaussian => fun j =>
            i0 * Real.exp (-4.0 * Real.log 2.0 * (t j / width_fs_eff) ^ 2)
        | .sech2 => fun j =>
            let sech_fwhm_factor := 2.0 * npacosh (Real.sqrt 2.0)
            let t0 := width_fs_eff / sech_fwhm_factor
            i0 / Real.cosh (t j / t0) ^ 2
      let field_t : ZMod num → ℂ := fun j => ((Real.sqrt (intensity_gen j) : ℝ) : ℂ)
      let field_w := npfft_centered field_t
      let w := npfftshift fun k => 2.0 * Real.pi * npfftfreq num dt k
      let dw := w 1 - w 0
      let intensity := fun j => Complex.abs (field_t j) ^ 2
      let spectrum := fun k => Complex.abs (field_w k) ^ 2
      let pulse' : PulseData num :=
        { t := t
          w := w
          dt := dt
          dw := dw
          center_wavelength_nm := spec.pulse.center_wavelength_nm
          field_t := field_t
          field_w := field_w
          intensity_t := intensity
          spectrum_w := spectrum }
      let pulse_energy_j := (∑ j : ZMod num, intensity j) * dt * 1e-15
      let rep_rate := spec.pulse.rep_rate_mhz
      let stage_metrics :=
        [ ("laser.energy_au", (∑ j : ZMod num, intensity j) * dt)
        , ("laser.peak_intensity_au", npMax intensity)
        , ("laser.intensity_fwhm_fs", width_fs_eff)
        , ("laser.peak_power_w", peak_power_w)
        , ("laser.pulse_energy_j", pulse_energy_j) ]
        ++ (if 0.0 < rep_rate then
              [("laser.avg_power_w", pulse_energy_j * rep_rate_hz rep_rate)] else [])
      let beam' : BeamState := { radius_mm := spec.beam.radius_mm, m2 := spec.beam.m2 }
      let meta' : RunMeta :=
        { st.meta with
          reference := some { n := num, intensity_t := intensity, spectrum_w := spectrum }
          rep_rate_mhz := some spec.pulse.rep_rate_mhz
          laser_intensity_fwhm_fs := some width_fs_eff
          laser_peak_power_w := some peak_power_w
          laser_intensity_autocorr_fwhm_fs_input := spec.pulse.intensity_autocorr_fwhm_fs
          laser_pulse_energy_j := some pulse_energy_j
          laser_avg_power_w :=
            if 0.0 < rep_rate then some (pulse_energy_j * rep_rate_hz rep_rate)
            else st.meta.laser_avg_power_w }
      let out : LaserState :=
        { st with
          pulse := ⟨num, inferInstance, pulse'⟩
          beam := beam'
          meta := meta'
          metrics := dictUpdate st.metrics stage_metrics
          artifacts := dictUpdate st.artifacts (maybe_emit_stage_plots cfg.name policy) }
      .ok { state := out, metrics := stage_metrics }

/-! ## Pipeline engine (src/cpa_sim/pipeline.py; run loop modelled from spec §4.1) -/

/-- A built stage: its resolved name and its `process` transform (the policy is
already partially applied, as the engine passes the same policy to every
stage). -/
structure BuiltStage where
  name : String
  process : LaserState → Except SimError StageResultS

/-- The stage name carried by either free-space config variant. -/
def FreeSpaceCfg.name : FreeSpaceCfg → String
  | .treacy_grating_pair c => c.name
  | .phase_only_dispersion c => c.name

/-- `_build_configurable_stages` dispatch (registry lookup by `kind`). -/
noncomputable def buildStageOfCfg (policy : Option PolicyBag) (c : PipelineStageCfg) :
    BuiltStage :=
  match c with
  | .free_space fc => { name := fc.name, process := treacyStageProcess fc }
  | .fiber fc => { name := fc.name, process := fiberStageProcess fc policy }
  | .simple_gain sc => { name := sc.name, process := fun st => .ok (simpleGainProcess sc st) }
  | .fiber_amp_wrap wc => { name := wc.name, process := fiberAmpWrapProcess wc policy }

/-- `build_pipeline`'s ordered stage list: laser generator, the configured
middle stages (explicit `stages` list, else the canonical
stretcher → fiber → amp → compressor default), then the metrics stage. -/
noncomputable def pipelineStages (cfg : PipelineConfig) (policy : Option PolicyBag) :
    List BuiltStage :=
  let ordered :=
    cfg.stages.getD [.free_space cfg.stretcher, .fiber cfg.fiber, cfg.amp,
      .free_space cfg.compressor]
  [ { name := cfg.laser_gen.name, process := laserGenProcess cfg.laser_gen policy } ]
    ++ ordered.map (buildStageOfCfg policy)
    ++ [ { name := cfg.metrics.name
           process := fun st => .ok (standardMetricsProcess cfg.metrics policy st) } ]

/-- Modelled from the spec: `phys_pipeline.SequentialPipeline.run` is not under
`src/` (it is imported through `phys_pipeline_compat`); §4.1 specifies a strict
left-to-right fold that threads the state, merges each stage's metrics into
both the state's metrics map and the pipeline's running output metrics
(namespaced `<pipeline-name>.<stage-name>.<metric>`, where the stage metric
keys already carry the stage-name prefix), and accumulates artifacts. -/
noncomputable def runStageList (pipeline_name : String) (stages : List BuiltStage)
    (st : LaserState) (accMetrics : List (String × ℝ)) (accArtifacts : List (String × String)) :
    Except SimError (LaserState × List (String × ℝ) × List (String × String)) :=
  match stages with
  | [] => .ok (st, accMetrics, accArtifacts)
  | s :: rest =>
    match s.process st with
    | .error e => .error e
    | .ok r =>
      let st' := { r.state with metrics := dictUpdate r.state.metrics r.metrics }
      let accMetrics' := dictUpdate accMetrics
        (r.metrics.map fun p => (pipeline_name ++ "." ++ s.name ++ "." ++ p.1, p.2))
      let accArtifacts' := dictUpdate accArtifacts r.state.artifacts
      runStageList pipeline_name rest st' accMetrics' accArtifacts'

/-- The result record returned by `run_pipeline` (final state, flat pipeline
metrics map, flat artifacts map). -/
structure PipelineResult where
  state : LaserState
  metrics : List (String × ℝ)
  artifacts : List (String × String)

/-- `RunProvenance.from_seed_and_hash`: the run id is the first 16 hex digits
of `sha256(f"{seed}:{config_hash}:{now}")`, with `now` the wall-clock
timestamp — the only run-to-run varying input.  The SHA-256 hex digest of the
Python standard library is embedded as the function parameter `sha`. -/
def provenance_from_seed_and_hash (sha : String → String) (seed : ℤ) (config_hash : String)
    (policy_hash : Option String) (now : String) : RunProvenance :=
  let run_key := (sha (toString seed ++ ":" ++ config_hash ++ ":" ++ now)).take 16
  { run_id := "run-" ++ run_key
    created_utc := now
    seed := seed
    config_hash := config_hash
    policy_hash := policy_hash }

/-- `_empty_state`: the trivial two-sample placeholder state. -/
noncomputable def emptyState (provenance : RunProvenance) : LaserState :=
  { pulse :=
      ⟨2, ⟨by omega⟩,
        { t := fun j => (j.val : ℝ)
          w := fun j => (j.val : ℝ)
          dt := 1.0
          dw := 1.0
          center_wavelength_nm := 1030.0
          field_t := fun _ => 0
          field_w := fun _ => 0
          intensity_t := fun _ => 0
          spectrum_w := fun _ => 0 }⟩
    beam := { radius_mm := 1.0, m2 := 1.0 }
    meta := { provenance := some provenance }
    metrics := []
    artifacts := [] }

/-- `run_pipeline`.  The deterministic external collaborators are passed as
function parameters: `hashConfig` embeds
`sha256(json.dumps(cfg.model_dump(), sort_keys=True))`, `hashPolicy` embeds
`_hash_policy`, and `sha` the raw SHA-256 hex digest used for the run key; the
wall-clock timestamp `datetime.now` is the explicit argument `now`. -/
noncomputable def run_pipeline (hashConfig : PipelineConfig → String)
    (hashPolicy : Option PolicyBag → Option String) (sha : String → String)
    (cfg : PipelineConfig) (policy : Option PolicyBag) (now : String) :
    Except SimError PipelineResult :=
  let config_hash := hashConfig cfg
  let policy_hash := hashPolicy policy
  let provenance :=
    provenance_from_seed_and_hash sha cfg.runtime.seed config_hash policy_hash now
  let initial_state := emptyState provenance
  match runStageList "cpa" (pipelineStages cfg policy) initial_state [] [] with
  | .error e => .error e
  | .ok (stF, metricsF, artifactsF) =>
    let meta1 :=
      { stF.meta with
        config_hash := some (stF.meta.config_hash.getD config_hash) }
    let meta2 := { meta1 with seed := some (meta1.seed.getD cfg.runtime.seed) }
    let meta3 :=
      { meta2 with
        run_id := some (meta2.run_id.getD ((meta2.provenance.map (·.run_id)).getD "unknown")) }
    .ok { state := { stF with meta := meta3 }, metrics := metricsF, artifacts := artifactsF }

/-! ## Fiber nonlinearity resolution (src/cpa_sim/stages/fiber/backends/wust_gnlse.py)
and `FiberPhysicsCfg` construction -/

/-- `_LIGHT_SPEED_M_PER_S = 299792458.0`. -/
def LIGHT_SPEED_M_PER_S : ℝ := 299792458.0

/-- `_resolve_gamma`: explicit `gamma_1_per_w_m` wins unconditionally; else
both `n2_m2_per_w` and `aeff_m2` are required and `γ = n2·ω₀/(c·Aeff)` is
derived. -/
noncomputable def resolve_gamma (physics : FiberPhysicsCfg) (center_wavelength_nm : ℝ) :
    Except SimError ℝ :=
  match physics.gamma_1_per_w_m with
  | some g => .ok g
  | none =>
    match physics.n2_m2_per_w, physics.aeff_m2 with
    | some n2, some aeff =>
      let wavelength_m := center_wavelength_nm * 1e-9
      let omega0 := 2.0 * Real.pi * LIGHT_SPEED_M_PER_S / wavelength_m
      .ok (n2 * omega0 / (LIGHT_SPEED_M_PER_S * aeff))
    | _, _ => .error .missingGammaSpec

/-- Pydantic construction of `FiberPhysicsCfg`.  The source's only validator on
this record checks `math.isfinite(loss_db_per_m)`, which cannot fail in the
exact-real embedding (`ℝ` has no NaN or infinity), and there is no model-level
validator: every field combination constructs successfully. -/
def mkFiberPhysicsCfg (cfg : FiberPhysicsCfg) : Except SimError FiberPhysicsCfg := .ok cfg

/-! ## Object-heap model of stage state threading

Python `LaserState` objects are mutable: `process` receives a reference to the
caller's state, calls `out = state.deepcopy()` (fresh objects for the pulse,
beam, meta, metrics and artifacts sub-objects), and every subsequent attribute
rebind / `dict.update` in the source targets `out`'s objects.  The heap model
makes object identity explicit so that non-mutation of the input is a real
statement: addresses are naturals, a state is a record of five addresses, and
a stage's net heap effect is to allocate the result state at fresh addresses,
leaving every previously allocated cell untouched.  On a stage error the
partially-built copy is unreachable garbage and the input cells are likewise
untouched. -/

/-- A heap cell: one of the five mutable sub-objects of a `LaserState`. -/
inductive HeapVal
  | pulseV (p : PulseSig)
  | beamV (b : BeamState)
  | metaV (m : RunMeta)
  | metricsV (m : List (String × ℝ))
  | artifactsV (a : List (String × String))

/-- A bump-allocated object heap. -/
structure Heap where
  next : ℕ
  mem : ℕ → Option HeapVal

/-- The five object references making up a Python-level `LaserState`. -/
structure StateRef where
  pulseA : ℕ
  beamA : ℕ
  metaA : ℕ
  metricsA : ℕ
  artifactsA : ℕ

/-- Dereference a state: read its five sub-objects. -/
def readState (σ : Heap) (r : StateRef) : Option LaserState :=
  match σ.mem r.pulseA, σ.mem r.beamA, σ.mem r.metaA, σ.mem r.metricsA, σ.mem r.artifactsA with
  | some (.pulseV p), some (.beamV b), some (.metaV m), some (.metricsV mm),
      some (.artifactsV aa) =>
    some { pulse := p, beam := b, meta := m, metrics := mm, artifacts := aa }
  | _, _, _, _, _ => none

/-- Allocate a full state at five fresh consecutive addresses (the net effect
of `state.deepcopy()` followed by the stage's writes to the copy). -/
def allocState (σ : Heap) (st : LaserState) : Heap × StateRef :=
  ({ next := σ.next + 5
     mem := fun i =>
       if i = σ.next then some (.pulseV st.pulse)
       else if i = σ.next + 1 then some (.beamV st.beam)
       else if i = σ.next + 2 then some (.metaV st.meta)
       else if i = σ.next + 3 then some (.metricsV st.metrics)
       else if i = σ.next + 4 then some (.artifactsV st.artifacts)
       else σ.mem i },
   { pulseA := σ.next, beamA := σ.next + 1, metaA := σ.next + 2, metricsA := σ.next + 3,
     artifactsA := σ.next + 4 })

/-- The five pipeline stages quantified over by the frame claim. -/
inductive StageCall
  | laser (cfg : LaserGenCfg)
  | grating (cfg : FreeSpaceCfg)
  | gain (cfg : SimpleGainCfg)
  | toyAmp (cfg : ToyFiberAmpCfg)
  | metricsStage (cfg : MetricsCfg)

/-- The value-level `process` of each of the five stages. -/
noncomputable def pureStageProcess (c : StageCall) (policy : Option PolicyBag)
    (st : LaserState) : Except SimError StageResultS :=
  match c with
  | .laser cfg => laserGenProcess cfg policy st
  | .grating cfg => treacyStageProcess cfg st
  | .gain cfg => .ok (simpleGainProcess cfg st)
  | .toyAmp cfg => toyFiberAmpProcess cfg policy st
  | .metricsStage cfg => .ok (standardMetricsProcess cfg policy st)

/-- Heap-level semantics of `process` for the five stages: read the input
state through its references, run the stage on the value, and allocate the
deep-copied result at fresh addresses.  Returns the new heap and, on success,
the reference to the returned state together with the stage metrics. -/
noncomputable def heapStageProcess (c : StageCall) (policy : Option PolicyBag) (σ : Heap)
    (r : StateRef) : Heap × Option (StateRef × List (String × ℝ)) :=
  match readState σ r with
  | none => (σ, none)
  | some st =>
    match pureStageProcess c policy st with
    | .error _ => (σ, none)
    | .ok res =>
      let alloc := allocState σ res.state
      (alloc.1, some (alloc.2, res.metrics))

/-! ## Observable projections and determinism scrubbing -/

/-- The `apply_to_pulse` flag of either free-space variant. -/
def FreeSpaceCfg.applyToPulse : FreeSpaceCfg → Bool
  | .treacy_grating_pair c => c.apply_to_pulse
  | .phase_only_dispersion c => c.apply_to_pulse

/-- The pointwise spectral magnitude `|field_w|` of a state, with its sample
count. -/
noncomputable def stateAbsW (s : LaserState) : (n : ℕ) × (ZMod n → ℝ) :=
  ⟨s.pulse.n, fun k => Complex.abs (s.pulse.data.field_w k)⟩

/-- The time-domain envelope of a state, with its sample count. -/
noncomputable def stateFieldT (s : LaserState) : (n : ℕ) × (ZMod n → ℂ) :=
  ⟨s.pulse.n, s.pulse.data.field_t⟩

/-- Total energy `Σ|A(t)|²·dt` of a state. -/
noncomputable def stateEnergyT (s : LaserState) : ℝ :=
  (∑ j : ZMod s.pulse.n, Complex.abs (s.pulse.data.field_t j) ^ 2) * s.pulse.data.dt

/-- Drop the timestamp-derived meta entries (`provenance`, `run_id`): the
fields the determinism claim excludes. -/
def metaScrub (m : RunMeta) : RunMeta := { m with provenance := none, run_id := none }

/-- Scrub a state of its timestamp-derived meta entries. -/
def stateScrub (s : LaserState) : LaserState := { s with meta := metaScrub s.meta }

/-- Scrub a stage result. -/
def resScrub (r : StageResultS) : LaserState × List (String × ℝ) :=
  (stateScrub r.state, r.metrics)

/-- Scrub a pipeline fold accumulator. -/
def finScrub (t : LaserState × List (String × ℝ) × List (String × String)) :
    LaserState × List (String × ℝ) × List (String × String) :=
  (stateScrub t.1, t.2.1, t.2.2)

/-! ## Treacy geometry argument abbreviations (the `let`s of
`_compute_treacy_metrics`, named so the domain-error claim can refer to them) -/

/-- `theta_i_rad = math.radians(cfg.incidence_angle_deg)`. -/
noncomputable def treacy_theta_i_rad (cfg : TreacyGratingPairCfg) : ℝ :=
  cfg.incidence_angle_deg * Real.pi / 180.0

/-- `littrow_arg = lambda_um / (2 * d_um)`. -/
noncomputable def treacy_littrow_arg (cfg : TreacyGratingPairCfg) : ℝ :=
  (cfg.wavelength_nm * 1e-3) / (2.0 * (1000.0 / cfg.line_density_lpmm))

/-- `diff_arg = -m * (lambda_um / d_um) - sin(theta_i)`. -/
noncomputable def treacy_diff_arg (cfg : TreacyGratingPairCfg) : ℝ :=
  -(cfg.diffraction_order : ℝ) * ((cfg.wavelength_nm * 1e-3) / (1000.0 / cfg.line_density_lpmm))
    - Real.sin (treacy_theta_i_rad cfg)

/-- `gdd_bracket = 1 - (-m * lambda_um / d_um - sin(theta_i))²`. -/
noncomputable def treacy_gdd_bracket (cfg : TreacyGratingPairCfg) : ℝ :=
  1.0 - (-(cfg.diffraction_order : ℝ) * (cfg.wavelength_nm * 1e-3)
      / (1000.0 / cfg.line_density_lpmm) - Real.sin (treacy_theta_i_rad cfg)) ^ 2

/-- `tod_den = 1 - (lambda_um / d_um - sin(theta_i))²`. -/
noncomputable def treacy_tod_den (cfg : TreacyGratingPairCfg) : ℝ :=
  1.0 - ((cfg.wavelength_nm * 1e-3) / (1000.0 / cfg.line_density_lpmm)
    - Real.sin (treacy_theta_i_rad cfg)) ^ 2

/-- `gdd` closed form of `_compute_treacy_metrics` (Treacy grating-pair GDD). -/
noncomputable def treacy_gdd (cfg : TreacyGratingPairCfg) : ℝ :=
  -(((cfg.n_passes : ℝ) * (cfg.diffraction_order : ℝ) ^ 2 * cfg.separation_um
        * (cfg.wavelength_nm * 1e-3) ^ 3)
      / (2.0 * Real.pi * C_UM_PER_FS ^ 2 * (1000.0 / cfg.line_density_lpmm) ^ 2))
    * treacy_gdd_bracket cfg ^ (-(1.5 : ℝ))

/-- `tod` closed form of `_compute_treacy_metrics`. -/
noncomputable def treacy_tod (cfg : TreacyGratingPairCfg) : ℝ :=
  -((3.0 * (cfg.wavelength_nm * 1e-3)) / (2.0 * Real.pi * C_UM_PER_FS))
    * ((1.0 + ((cfg.wavelength_nm * 1e-3) / (1000.0 / cfg.line_density_lpmm))
          * Real.sin (treacy_theta_i_rad cfg) - Real.sin (treacy_theta_i_rad cfg) ^ 2)
        / treacy_tod_den cfg)
    * treacy_gdd cfg

/-- The successful result of `_compute_treacy_metrics`, in terms of the named
closed forms (overrides replace the corresponding computed term only). -/
noncomputable def treacyOkMetrics (cfg : TreacyGratingPairCfg) : TreacyMetrics :=
  { gdd_fs2 := cfg.override_gdd_fs2.getD (treacy_gdd cfg)
    tod_fs3 := cfg.override_tod_fs3.getD (if cfg.include_tod then treacy_tod cfg else 0.0)
    line_density_lpmm := cfg.line_density_lpmm
    period_um := 1000.0 / cfg.line_density_lpmm
    wavelength_nm := cfg.wavelength_nm
    wavelength_um := cfg.wavelength_nm * 1e-3
    incidence_angle_deg := cfg.incidence_angle_deg
    incidence_angle_rad := treacy_theta_i_rad cfg
    littrow_angle_deg := Real.arcsin (treacy_littrow_arg cfg) * 180.0 / Real.pi
    diffraction_angle_deg := Real.arcsin (treacy_diff_arg cfg) * 180.0 / Real.pi
    omega0_rad_per_fs := 2.0 * Real.pi * C_UM_PER_FS / (cfg.wavelength_nm * 1e-3)
    n_passes := (cfg.n_passes : ℝ)
    diffraction_order := (cfg.diffraction_order : ℝ) }

/-! ## Concrete instances used by witnesses and counterexamples -/

/-- A one-sample pulse with unit envelope and consistent `field_w`. -/
noncomputable def unitPulse1 : PulseData 1 :=
  { t := fun _ => 0.0
    w := fun _ => 0.0
    dt := 1.0
    dw := 1.0
    center_wavelength_nm := 1030.0
    field_t := fun _ => 1
    field_w := npfft_centered fun _ => 1
    intensity_t := fun _ => 1.0
    spectrum_w := fun k => Complex.abs (npfft_centered (fun _ : ZMod 1 => (1 : ℂ)) k) ^ 2 }

/-- A one-sample all-zero pulse. -/
noncomputable def zeroPulse1 : PulseData 1 :=
  { t := fun _ => 0.0
    w := fun _ => 0.0
    dt := 1.0
    dw := 1.0
    center_wavelength_nm := 1030.0
    field_t := fun _ => 0
    field_w := fun _ => 0
    intensity_t := fun _ => 0.0
    spectrum_w := fun _ => 0.0 }

/-- A witness state with unit envelope and `rep_rate_mhz = 1` metadata. -/
noncomputable def unitState1 : LaserState :=
  { pulse := ⟨1, ⟨one_ne_zero⟩, unitPulse1⟩
    beam := { radius_mm := 1.0, m2 := 1.0 }
    meta := { rep_rate_mhz := some 1.0 }
    metrics := []
    artifacts := [] }

/-- A witness state with zero envelope and `rep_rate_mhz = 1` metadata. -/
noncomputable def zeroState1 : LaserState :=
  { pulse := ⟨1, ⟨one_ne_zero⟩, zeroPulse1⟩
    beam := { radius_mm := 1.0, m2 := 1.0 }
    meta := { rep_rate_mhz := some 1.0 }
    metrics := []
    artifacts := [] }

/-- C5 witness: an explicitly set 80 fs width. -/
def spec5widthSet : PulseSpec := { width_fs := 80.0, width_fs_set := true }

/-- C5 witness: gaussian via autocorrelation FWHM 10 fs. -/
def spec5gauss : PulseSpec := { intensity_autocorr_fwhm_fs := some 10.0 }

/-- C5 scenario: sech² via autocorrelation FWHM 11111.11 fs. -/
def spec5sech : PulseSpec :=
  { shape := .sech2, intensity_autocorr_fwhm_fs := some 11111.11 }

/-- C6 witness geometry: at normal incidence with 1200 l/mm and 1030 nm in
order -1, the diffraction-angle argument is `1.236 > 1` while the Littrow
argument `0.618` is in-domain. -/
def treacyCfgDiffViolation : TreacyGratingPairCfg :=
  { name := "bad", line_density_lpmm := 1200.0, incidence_angle_deg := 0.0,
    wavelength_nm := 1030.0, diffraction_order := -1 }

/-- C8 counterexample geometry: `λ/d = 1` at normal incidence in order -1
makes the GDD radical argument exactly 0 (≤ 0) while both inverse sines are
in-domain; the GDD override is set. -/
def treacyCfgOverrideStillChecked : TreacyGratingPairCfg :=
  { name := "cex", line_density_lpmm := 1000.0, incidence_angle_deg := 0.0,
    wavelength_nm := 1000.0, diffraction_order := -1, override_gdd_fs2 := some 0.0 }

/-- C8 witness geometry: a valid geometry (800 l/mm, normal incidence,
1030 nm, order -1) carrying both overrides. -/
def treacyCfgOverrideValid : TreacyGratingPairCfg :=
  { name := "ovr", line_density_lpmm := 800.0, incidence_angle_deg := 0.0,
    wavelength_nm := 1030.0, diffraction_order := -1,
    override_gdd_fs2 := some 1234.5, override_tod_fs3 := some (-7.0) }

/-- C7 counterexample: an explicit `γ = 1` together with an `n2`/`Aeff` pair
whose derived `γ = 2π·10⁻²` disagrees with it by far more than 5 % relative. -/
def fiberPhysicsContradictory : FiberPhysicsCfg :=
  { gamma_1_per_w_m := some 1.0, n2_m2_per_w := some 1e-20, aeff_m2 := some 1e-12 }

/-- The γ value `_resolve_gamma` would derive from the `n2`/`Aeff` pair of
`fiberPhysicsContradictory` at 1000 nm. -/
noncomputable def contradictoryDerivedGamma : ℝ :=
  1e-20 * (2.0 * Real.pi * LIGHT_SPEED_M_PER_S / (1000.0 * 1e-9))
    / (LIGHT_SPEED_M_PER_S * 1e-12)

/-- C2 witness stage config: phase-only dispersion applied to the pulse. -/
def phaseOnlyCfgW : FreeSpaceCfg :=
  .phase_only_dispersion { name := "fs", gdd_fs2 := 2500.0, tod_fs3 := -1000.0 }

/-- C3 witness config: all coefficients zero, direct 0 dB gain. -/
def toyAmpCfgZero : ToyFiberAmpCfg := { name := "toy_amp", gain_db := some 0.0 }

/-- C4 witness config: target output average power 1 W. -/
def toyAmpCfgPower : ToyFiberAmpCfg := { name := "toy_amp", amp_power_w := some 1.0 }

/-- C10 witness config: negative linear gain. -/
def simpleGainCfgNeg : SimpleGainCfg := { name := "amp", gain_linear := -1.0 }

/-- C1 witness pipeline config: explicitly empty middle-stage list, so the
chain is laser generator followed by the metrics stage. -/
def pipelineCfgW : PipelineConfig := { stages := some [] }

/-- C9 witness heap: one allocated (empty) cell. -/
def heapW : Heap := { next := 1, mem := fun _ => none }

/-- C9 witness reference. -/
def stateRefW : StateRef :=
  { pulseA := 0, beamA := 0, metaA := 0, metricsA := 0, artifactsA := 0 }

/-! # Theorems -/

/-- C5: Intensity-FWHM resolution: the resolved width equals the explicitly
set `width_fs` when that field is explicitly set; otherwise, when
`intensity_autocorr_fwhm_fs` is set, it equals that value divided by `√2` for
a gaussian shape and divided by `1/0.648 (≈ 1.543)` for a sech² shape; in
particular a sech² spec with autocorrelation FWHM `11111.11 fs` resolves to an
intensity FWHM of `7200 fs` within `1 fs`. -/
theorem resolve_intensity_fwhm_fs_spec (spec : PulseSpec) :
    (spec.width_fs_set = true → resolve_intensity_fwhm_fs spec = spec.width_fs)
    ∧ (spec.width_fs_set = false →
        ∀ a, spec.intensity_autocorr_fwhm_fs = some a →
          (spec.shape = .gaussian → resolve_intensity_fwhm_fs spec = a / Real.sqrt 2)
            ∧ (spec.shape = .sech2 → resolve_intensity_fwhm_fs spec = a / (1 / 0.648)))
    ∧ (spec.width_fs_set = false → spec.shape = .sech2 →
        spec.intensity_autocorr_fwhm_fs = some 11111.11 →
        |resolve_intensity_fwhm_fs spec - 7200| ≤ 1) := by
  refine ⟨?_, ?_, ?_⟩
  · intro hset
    unfold resolve_intensity_fwhm_fs
    cases spec.intensity_autocorr_fwhm_fs <;> simp [hset]
  · intro hset a ha
    constructor
    · intro hsh
      simp only [resolve_intensity_fwhm_fs, ha, hset, hsh, SHAPE_TO_AUTOCORR_DECONV,
        GAUSSIAN_AUTOCORR_DECONV_FACTOR]
      norm_num
    · intro hsh
      simp only [resolve_intensity_fwhm_fs, ha, hset, hsh, SHAPE_TO_AUTOCORR_DECONV,
        SECH2_AUTOCORR_WIDTH_MULTIPLIER]
      norm_num
  · intro hset hsh ha
    simp only [resolve_intensity_fwhm_fs, ha, hset, hsh, SHAPE_TO_AUTOCORR_DECONV,
      SECH2_AUTOCORR_WIDTH_MULTIPLIER]
    rw [abs_le]
    constructor <;> norm_num

/-- C5 witness: the three resolution modes evaluated at concrete specs, via
`resolve_intensity_fwhm_fs_spec`. -/
theorem resolve_intensity_fwhm_fs_spec_witness :
    (spec5widthSet.width_fs_set = true
      ∧ resolve_intensity_fwhm_fs spec5widthSet = 80.0)
    ∧ (spec5gauss.width_fs_set = false
      ∧ resolve_intensity_fwhm_fs spec5gauss = 10.0 / Real.sqrt 2)
    ∧ (spec5sech.width_fs_set = false
      ∧ |resolve_intensity_fwhm_fs spec5sech - 7200| ≤ 1) :=
  ⟨⟨rfl, (resolve_intensity_fwhm_fs_spec spec5widthSet).1 rfl⟩,
    ⟨rfl, ((resolve_intensity_fwhm_fs_spec spec5gauss).2.1 rfl 10.0 rfl).1 rfl⟩,
    ⟨rfl, (resolve_intensity_fwhm_fs_spec spec5sech).2.2 rfl rfl rfl⟩⟩

/-- C10: the simple-gain stage multiplies the envelope by
`sqrt(max(gain_linear, 0))`; consequently for `gain_linear ≤ 0` the returned
state's envelope is identically zero and its energy is zero.  (The
`SimpleGainCfg` record carries no validator, so any `gain_linear`, negative
included, constructs; both the construction and the stage are total.) -/
theorem simple_gain_clamps_nonpositive (cfg : SimpleGainCfg) (st : LaserState) :
    ((simpleGainProcess cfg st).state.pulse.data.field_t
        = fun j => st.pulse.data.field_t j
          * ((field_gain_from_power_gain cfg.gain_linear : ℝ) : ℂ))
    ∧ (cfg.gain_linear ≤ 0 →
        ((simpleGainProcess cfg st).state.pulse.data.field_t = fun _ => 0)
          ∧ stateEnergyT (simpleGainProcess cfg st).state = 0) := by
  constructor
  · rfl
  · intro h
    have hzero : field_gain_from_power_gain cfg.gain_linear = 0 := by
      unfold field_gain_from_power_gain
      rw [show max cfg.gain_linear 0.0 = 0.0 from max_eq_right (by linarith)]
      norm_num
    have hfield : (simpleGainProcess cfg st).state.pulse.data.field_t = fun _ => 0 := by
      show (fun j => st.pulse.data.field_t j
          * ((field_gain_from_power_gain cfg.gain_linear : ℝ) : ℂ)) = fun _ => 0
      funext j
      rw [hzero]
      simp
    refine ⟨hfield, ?_⟩
    unfold stateEnergyT
    rw [show (simpleGainProcess cfg st).state.pulse.data.field_t = fun _ => 0 from hfield]
    simp

/-- C10 witness: `simple_gain_clamps_nonpositive` at `gain_linear = -1` on a
unit one-sample state. -/
theorem simple_gain_clamps_nonpositive_witness :
    simpleGainCfgNeg.gain_linear ≤ 0
    ∧ ((simpleGainProcess simpleGainCfgNeg unitState1).state.pulse.data.field_t = fun _ => 0)
    ∧ stateEnergyT (simpleGainProcess simpleGainCfgNeg unitState1).state = 0 := by
  have h : simpleGainCfgNeg.gain_linear ≤ 0 := by norm_num [simpleGainCfgNeg]
  have := (simple_gain_clamps_nonpositive simpleGainCfgNeg unitState1).2 h
  exact ⟨h, this.1, this.2⟩

/-- C9: no stage mutates its input state: the heap-level semantics of each of
the five stages (laser generator, dispersion/grating, simple gain, toy fiber
amplifier, metrics) leaves every previously allocated heap cell unchanged, and
every object of the returned state lives at a fresh address (the deep copy). -/
theorem stage_process_preserves_input_heap (c : StageCall) (policy : Option PolicyBag)
    (σ : Heap) (r : StateRef) (a : ℕ) (ha : a < σ.next) :
    (heapStageProcess c policy σ r).1.mem a = σ.mem a
    ∧ ∀ r' ms, (heapStageProcess c policy σ r).2 = some (r', ms) →
        σ.next ≤ r'.pulseA ∧ σ.next ≤ r'.beamA ∧ σ.next ≤ r'.metaA
          ∧ σ.next ≤ r'.metricsA ∧ σ.next ≤ r'.artifactsA := by
  rcases hrs : readState σ r with _ | st
  · have he : heapStageProcess c policy σ r = (σ, none) := by
      unfold heapStageProcess
      rw [hrs]
    rw [he]
    exact ⟨rfl, fun r' ms h => by cases h⟩
  · rcases hp : pureStageProcess c policy st with e | res
    · have he : heapStageProcess c policy σ r = (σ, none) := by
        unfold heapStageProcess
        rw [hrs]
        dsimp only
        rw [hp]
      rw [he]
      exact ⟨rfl, fun r' ms h => by cases h⟩
    · have he : heapStageProcess c policy σ r
          = ((allocState σ res.state).1, some ((allocState σ res.state).2, res.metrics)) := by
        unfold heapStageProcess
        rw [hrs]
        dsimp only
        rw [hp]
      rw [he]
      constructor
      · show (allocState σ res.state).1.mem a = σ.mem a
        simp only [allocState]
        split_ifs <;> first | rfl | omega
      · intro r' ms h
        have h' : some ((allocState σ res.state).2, res.metrics) = some (r', ms) := h
        injection h' with h''
        have h2 : (allocState σ res.state).2 = r' := congrArg Prod.fst h''
        subst h2
        simp only [allocState]
        omega

/-- C9 witness: `stage_process_preserves_input_heap` at a concrete stage call,
heap and address. -/
theorem stage_process_preserves_input_heap_witness :
    (0 < heapW.next)
    ∧ (heapStageProcess (.gain {}) none heapW stateRefW).1.mem 0 = heapW.mem 0 :=
  ⟨by norm_num [heapW],
    (stage_process_preserves_input_heap (.gain {}) none heapW stateRefW 0
      (by norm_num [heapW])).1⟩

/-- `_compute_treacy_metrics` restated as a chain over its four ordered domain
checks: every code path is either one of the four explicit errors or the
closed-form success record. -/
lemma compute_treacy_metrics_eq (cfg : TreacyGratingPairCfg) :
    compute_treacy_metrics cfg =
      if treacy_littrow_arg cfg < -1.0 ∨ treacy_littrow_arg cfg > 1.0 then
        .error (.asinDomain "littrow angle" (treacy_littrow_arg cfg))
      else if treacy_diff_arg cfg < -1.0 ∨ treacy_diff_arg cfg > 1.0 then
        .error (.asinDomain "diffraction angle" (treacy_diff_arg cfg))
      else if treacy_gdd_bracket cfg ≤ 0.0 then
        .error (.treacyGddRadical (treacy_gdd_bracket cfg) cfg.line_density_lpmm
          cfg.incidence_angle_deg cfg.wavelength_nm cfg.diffraction_order)
      else if treacy_tod_den cfg ≤ 0.0 then
        .error (.treacyTodDenominator (treacy_tod_den cfg) cfg.line_density_lpmm
          cfg.incidence_angle_deg cfg.wavelength_nm)
      else .ok (treacyOkMetrics cfg) := by
  unfold compute_treacy_metrics safe_asin treacyOkMetrics treacy_tod treacy_gdd
    treacy_littrow_arg treacy_diff_arg treacy_gdd_bracket treacy_tod_den treacy_theta_i_rad
  dsimp only
  by_cases h1 : cfg.wavelength_nm * 1e-3 / (2.0 * (1000.0 / cfg.line_density_lpmm)) < -1.0
      ∨ cfg.wavelength_nm * 1e-3 / (2.0 * (1000.0 / cfg.line_density_lpmm)) > 1.0
  · rw [if_pos h1, if_pos h1]
  · rw [if_neg h1, if_neg h1]
    dsimp only
    by_cases h2 : -(cfg.diffraction_order : ℝ)
          * (cfg.wavelength_nm * 1e-3 / (1000.0 / cfg.line_density_lpmm))
          - Real.sin (cfg.incidence_angle_deg * Real.pi / 180.0) < -1.0
        ∨ -(cfg.diffraction_order : ℝ)
          * (cfg.wavelength_nm * 1e-3 / (1000.0 / cfg.line_density_lpmm))
          - Real.sin (cfg.incidence_angle_deg * Real.pi / 180.0) > 1.0
    · rw [if_pos h2, if_pos h2]
    · rw [if_neg h2, if_neg h2]

/-- C6: the Treacy geometry computation fails iff one of its four domain
violations holds (Littrow or diffraction inverse-sine argument outside
`[-1, 1]`, GDD radical argument ≤ 0, TOD denominator ≤ 0); each violation
produces the explicit error naming the offending computation (context string
or constructor) together with the offending value and the geometric
parameters, the earlier check winning when several are violated; values are
never silently clamped (success occurs exactly when no violation holds). -/
theorem treacy_geometry_domain_errors (cfg : TreacyGratingPairCfg) :
    ((∃ e, compute_treacy_metrics cfg = .error e) ↔
      ((treacy_littrow_arg cfg < -1.0 ∨ treacy_littrow_arg cfg > 1.0)
        ∨ (treacy_diff_arg cfg < -1.0 ∨ treacy_diff_arg cfg > 1.0)
        ∨ treacy_gdd_bracket cfg ≤ 0.0 ∨ treacy_tod_den cfg ≤ 0.0))
    ∧ ((treacy_littrow_arg cfg < -1.0 ∨ treacy_littrow_arg cfg > 1.0) →
        compute_treacy_metrics cfg
          = .error (.asinDomain "littrow angle" (treacy_littrow_arg cfg)))
    ∧ (¬(treacy_littrow_arg cfg < -1.0 ∨ treacy_littrow_arg cfg > 1.0) →
        (treacy_diff_arg cfg < -1.0 ∨ treacy_diff_arg cfg > 1.0) →
        compute_treacy_metrics cfg
          = .error (.asinDomain "diffraction angle" (treacy_diff_arg cfg)))
    ∧ (¬(treacy_littrow_arg cfg < -1.0 ∨ treacy_littrow_arg cfg > 1.0) →
        ¬(treacy_diff_arg cfg < -1.0 ∨ treacy_diff_arg cfg > 1.0) →
        treacy_gdd_bracket cfg ≤ 0.0 →
        compute_treacy_metrics cfg
          = .error (.treacyGddRadical (treacy_gdd_bracket cfg) cfg.line_density_lpmm
              cfg.incidence_angle_deg cfg.wavelength_nm cfg.diffraction_order))
    ∧ (¬(treacy_littrow_arg cfg < -1.0 ∨ treacy_littrow_arg cfg > 1.0) →
        ¬(treacy_diff_arg cfg < -1.0 ∨ treacy_diff_arg cfg > 1.0) →
        ¬treacy_gdd_bracket cfg ≤ 0.0 →
        treacy_tod_den cfg ≤ 0.0 →
        compute_treacy_metrics cfg
          = .error (.treacyTodDenominator (treacy_tod_den cfg) cfg.line_density_lpmm
              cfg.incidence_angle_deg cfg.wavelength_nm)) := by
  have heq := compute_treacy_metrics_eq cfg
  refine ⟨?_, ?_, ?_, ?_, ?_⟩
  · rw [heq]
    by_cases h1 : treacy_littrow_arg cfg < -1.0 ∨ treacy_littrow_arg cfg > 1.0
    · simp [h1]
    · rw [if_neg h1]
      by_cases h2 : treacy_diff_arg cfg < -1.0 ∨ treacy_diff_arg cfg > 1.0
      · simp [h1, h2]
      · rw [if_neg h2]
        by_cases h3 : treacy_gdd_bracket cfg ≤ 0.0
        · simp [h1, h2, h3]
        · rw [if_neg h3]
          by_cases h4 : treacy_tod_den cfg ≤ 0.0
          · simp [h1, h2, h3, h4]
          · simp [h1, h2, h3, h4]
  · intro h1
    rw [heq, if_pos h1]
  · intro h1 h2
    rw [heq, if_neg h1, if_pos h2]
  · intro h1 h2 h3
    rw [heq, if_neg h1, if_neg h2, if_pos h3]
  · intro h1 h2 h3 h4
    rw [heq, if_neg h1, if_neg h2, if_neg h3, if_pos h4]

/-- C6 witness: `treacy_geometry_domain_errors` at a geometry whose
diffraction-angle argument exceeds 1 while the Littrow argument is in-domain. -/
theorem treacy_geometry_domain_errors_witness :
    (treacy_diff_arg treacyCfgDiffViolation < -1.0
        ∨ treacy_diff_arg treacyCfgDiffViolation > 1.0)
    ∧ compute_treacy_metrics treacyCfgDiffViolation
        = .error (.asinDomain "diffraction angle" (treacy_diff_arg treacyCfgDiffViolation)) := by
  have hθ : treacy_theta_i_rad treacyCfgDiffViolation = 0 := by
    unfold treacy_theta_i_rad treacyCfgDiffViolation
    norm_num
  have hsin : Real.sin (treacy_theta_i_rad treacyCfgDiffViolation) = 0 := by
    rw [hθ, Real.sin_zero]
  have hlit : ¬(treacy_littrow_arg treacyCfgDiffViolation < -1.0
      ∨ treacy_littrow_arg treacyCfgDiffViolation > 1.0) := by
    unfold treacy_littrow_arg treacyCfgDiffViolation
    norm_num
  have hdiff : treacy_diff_arg treacyCfgDiffViolation > 1.0 := by
    unfold treacy_diff_arg
    rw [hsin]
    unfold treacyCfgDiffViolation
    norm_num
  exact ⟨Or.inr hdiff,
    (treacy_geometry_domain_errors treacyCfgDiffViolation).2.2.1 hlit (Or.inr hdiff)⟩

/-- C8 counterexample: with `override_gdd_fs2` set, a geometry whose GDD
radical argument is 0 still raises the GDD domain error — the closed-form
computation and its domain check are not bypassed by the override. -/
theorem treacy_override_domain_check_counterexample :
    treacyCfgOverrideStillChecked.override_gdd_fs2 = some 0.0
    ∧ treacy_gdd_bracket treacyCfgOverrideStillChecked = 0
    ∧ compute_treacy_metrics treacyCfgOverrideStillChecked
        = .error (.treacyGddRadical (treacy_gdd_bracket treacyCfgOverrideStillChecked)
            1000.0 0.0 1000.0 (-1)) := by
  have hθ : treacy_theta_i_rad treacyCfgOverrideStillChecked = 0 := by
    unfold treacy_theta_i_rad treacyCfgOverrideStillChecked
    norm_num
  have hsin : Real.sin (treacy_theta_i_rad treacyCfgOverrideStillChecked) = 0 := by
    rw [hθ, Real.sin_zero]
  have hlit : ¬(treacy_littrow_arg treacyCfgOverrideStillChecked < -1.0
      ∨ treacy_littrow_arg treacyCfgOverrideStillChecked > 1.0) := by
    unfold treacy_littrow_arg treacyCfgOverrideStillChecked
    norm_num
  have hdiff : ¬(treacy_diff_arg treacyCfgOverrideStillChecked < -1.0
      ∨ treacy_diff_arg treacyCfgOverrideStillChecked > 1.0) := by
    unfold treacy_diff_arg
    rw [hsin]
    unfold treacyCfgOverrideStillChecked
    norm_num
  have hbr : treacy_gdd_bracket treacyCfgOverrideStillChecked = 0 := by
    unfold treacy_gdd_bracket
    rw [hsin]
    unfold treacyCfgOverrideStillChecked
    norm_num
  have herr := (treacy_geometry_domain_errors treacyCfgOverrideStillChecked).2.2.2.1 hlit hdiff
    (by rw [hbr]; norm_num)
  refine ⟨rfl, hbr, ?_⟩
  rw [herr]
  rfl

/-- C8 (amended): when `override_gdd_fs2` (resp. `override_tod_fs3`) is set,
the dispersion reported and applied for that term equals the override value;
however the closed-form geometry computation is not bypassed: success of the
stage computation still requires all four domain checks (including the
overridden term's) to pass. -/
theorem treacy_override_replaces_term (cfg : TreacyGratingPairCfg) (tm : TreacyMetrics)
    (h : compute_treacy_metrics cfg = .ok tm) :
    (∀ g, cfg.override_gdd_fs2 = some g → tm.gdd_fs2 = g)
    ∧ (∀ t, cfg.override_tod_fs3 = some t → tm.tod_fs3 = t)
    ∧ ¬(treacy_littrow_arg cfg < -1.0 ∨ treacy_littrow_arg cfg > 1.0)
    ∧ ¬(treacy_diff_arg cfg < -1.0 ∨ treacy_diff_arg cfg > 1.0)
    ∧ ¬treacy_gdd_bracket cfg ≤ 0.0
    ∧ ¬treacy_tod_den cfg ≤ 0.0 := by
  rw [compute_treacy_metrics_eq] at h
  split_ifs at h with h1 h2 h3 h4
  injection h with h'
  subst h'
  refine ⟨?_, ?_, h1, h2, h3, h4⟩
  · intro g hg
    show (treacyOkMetrics cfg).gdd_fs2 = g
    unfold treacyOkMetrics
    rw [hg]
    rfl
  · intro t ht
    show (treacyOkMetrics cfg).tod_fs3 = t
    unfold treacyOkMetrics
    rw [ht]
    rfl

/-- C8 witness: `treacy_override_replaces_term` on a valid geometry carrying
both overrides. -/
theorem treacy_override_replaces_term_witness :
    ∃ tm, compute_treacy_metrics treacyCfgOverrideValid = .ok tm
      ∧ tm.gdd_fs2 = 1234.5 ∧ tm.tod_fs3 = -7.0 := by
  have hθ : treacy_theta_i_rad treacyCfgOverrideValid = 0 := by
    unfold treacy_theta_i_rad treacyCfgOverrideValid
    norm_num
  have hsin : Real.sin (treacy_theta_i_rad treacyCfgOverrideValid) = 0 := by
    rw [hθ, Real.sin_zero]
  have hlit : ¬(treacy_littrow_arg treacyCfgOverrideValid < -1.0
      ∨ treacy_littrow_arg treacyCfgOverrideValid > 1.0) := by
    unfold treacy_littrow_arg treacyCfgOverrideValid
    norm_num
  have hdiff : ¬(treacy_diff_arg treacyCfgOverrideValid < -1.0
      ∨ treacy_diff_arg treacyCfgOverrideValid > 1.0) := by
    unfold treacy_diff_arg
    rw [hsin]
    unfold treacyCfgOverrideValid
    norm_num
  have hbr : ¬treacy_gdd_bracket treacyCfgOverrideValid ≤ 0.0 := by
    unfold treacy_gdd_bracket
    rw [hsin]
    unfold treacyCfgOverrideValid
    norm_num
  have htd : ¬treacy_tod_den treacyCfgOverrideValid ≤ 0.0 := by
    unfold treacy_tod_den
    rw [hsin]
    unfold treacyCfgOverrideValid
    norm_num
  have hok : compute_treacy_metrics treacyCfgOverrideValid
      = .ok (treacyOkMetrics treacyCfgOverrideValid) := by
    rw [compute_treacy_metrics_eq, if_neg hlit, if_neg hdiff, if_neg hbr, if_neg htd]
  refine ⟨treacyOkMetrics treacyCfgOverrideValid, hok, ?_, ?_⟩
  · exact (treacy_override_replaces_term treacyCfgOverrideValid _ hok).1 1234.5 rfl
  · exact (treacy_override_replaces_term treacyCfgOverrideValid _ hok).2.1 (-7.0) rfl

/-- C7 counterexample: a `FiberPhysicsCfg` carrying both an explicit `γ = 1`
and an `n2`/`Aeff` pair whose derived `γ = π/50 ≈ 0.063` disagrees with it by
far more than 5 % relative constructs successfully (no contradiction error
exists in the source), and gamma resolution silently prefers the explicit
value. -/
theorem fiber_gamma_contradiction_unchecked :
    mkFiberPhysicsCfg fiberPhysicsContradictory = .ok fiberPhysicsContradictory
    ∧ resolve_gamma fiberPhysicsContradictory 1000.0 = .ok 1.0
    ∧ |(1.0 : ℝ) - contradictoryDerivedGamma| > 0.05 * 1.0
    ∧ |(1.0 : ℝ) - contradictoryDerivedGamma| > 0.05 * contradictoryDerivedGamma := by
  have hd : contradictoryDerivedGamma = Real.pi / 50 := by
    unfold contradictoryDerivedGamma LIGHT_SPEED_M_PER_S
    field_simp
    ring
  have hπl := Real.pi_gt_three
  have hπu := Real.pi_lt_d2
  have hself := le_abs_self ((1.0 : ℝ) - contradictoryDerivedGamma)
  refine ⟨rfl, rfl, ?_, ?_⟩
  · rw [hd] at hself ⊢
    nlinarith
  · rw [hd] at hself ⊢
    nlinarith

/-- C7 (amended): fiber nonlinearity resolution (at fiber-stage runtime, not
configuration construction) uses the explicit `gamma_1_per_w_m` when present
— with no consistency check against `n2`/`Aeff` — and otherwise requires both
`n2_m2_per_w` and `aeff_m2`, deriving `γ = n2·ω₀/(c·Aeff)`, raising a value
error when neither route is available; `FiberPhysicsCfg` construction itself
never fails on these fields. -/
theorem resolve_gamma_spec (physics : FiberPhysicsCfg) (cwl : ℝ) :
    (∀ g, physics.gamma_1_per_w_m = some g → resolve_gamma physics cwl = .ok g)
    ∧ (physics.gamma_1_per_w_m = none →
        (physics.n2_m2_per_w = none ∨ physics.aeff_m2 = none) →
        resolve_gamma physics cwl = .error .missingGammaSpec)
    ∧ (∀ n2 aeff, physics.gamma_1_per_w_m = none → physics.n2_m2_per_w = some n2 →
        physics.aeff_m2 = some aeff →
        resolve_gamma physics cwl
          = .ok (n2 * (2.0 * Real.pi * LIGHT_SPEED_M_PER_S / (cwl * 1e-9))
              / (LIGHT_SPEED_M_PER_S * aeff)))
    ∧ mkFiberPhysicsCfg physics = .ok physics := by
  refine ⟨?_, ?_, ?_, rfl⟩
  · intro g hg
    unfold resolve_gamma
    rw [hg]
  · intro hg hna
    unfold resolve_gamma
    rw [hg]
    rcases hna with hn | ha
    · rw [hn]
    · rcases hn2 : physics.n2_m2_per_w with _ | n2
      · rfl
      · rw [ha]
  · intro n2 aeff hg hn ha
    unfold resolve_gamma
    rw [hg, hn, ha]

/-- C7 amended-theorem witness: the three gamma-resolution routes at concrete
configurations. -/
theorem resolve_gamma_spec_witness :
    resolve_gamma fiberPhysicsContradictory 1000.0 = .ok 1.0
    ∧ resolve_gamma {} 1030.0 = .error .missingGammaSpec
    ∧ resolve_gamma { n2_m2_per_w := some 1e-20, aeff_m2 := some 1e-12 } 1000.0
        = .ok (1e-20 * (2.0 * Real.pi * LIGHT_SPEED_M_PER_S / (1000.0 * 1e-9))
            / (LIGHT_SPEED_M_PER_S * 1e-12)) :=
  ⟨(resolve_gamma_spec fiberPhysicsContradictory 1000.0).1 1.0 rfl,
    (resolve_gamma_spec {} 1030.0).2.1 rfl (Or.inl rfl),
    (resolve_gamma_spec { n2_m2_per_w := some 1e-20, aeff_m2 := some 1e-12 } 1000.0).2.2.1
      1e-20 1e-12 rfl rfl rfl⟩

lemma abs_mul_exp_I (z : ℂ) (θ : ℝ) :
    Complex.abs (z * Complex.exp (Complex.I * (θ : ℂ))) = Complex.abs z := by
  rw [map_mul, Complex.abs_exp]
  have hre : (Complex.I * (θ : ℂ)).re = 0 := by
    simp [Complex.mul_re]
  rw [hre, Real.exp_zero, mul_one]

lemma applyDispersionPhase_absW {n : ℕ} [NeZero n] (gdd tod w0 : ℝ) (p : PulseData n)
    (k : ZMod n) :
    Complex.abs ((applyDispersionPhase gdd tod w0 p).field_w k) = Complex.abs (p.field_w k) :=
  abs_mul_exp_I (p.field_w k) (phase_from_dispersion (p.w k) w0 gdd tod)

lemma applyDispersionPhase_energy {n : ℕ} [NeZero n] (gdd tod w0 : ℝ) (p : PulseData n)
    (hw : p.field_w = npfft_centered p.field_t) :
    ∑ j : ZMod n, Complex.abs ((applyDispersionPhase gdd tod w0 p).field_t j) ^ 2
      = ∑ j : ZMod n, Complex.abs (p.field_t j) ^ 2 := by
  have hN : ((n : ℝ)) ≠ 0 := Nat.cast_ne_zero.mpr (NeZero.ne n)
  apply mul_left_cancel₀ hN
  have h1 : (applyDispersionPhase gdd tod w0 p).field_t
      = npifft_centered (fun k => p.field_w k
          * Complex.exp (Complex.I * ((phase_from_dispersion (p.w k) w0 gdd tod : ℝ) : ℂ))) :=
    rfl
  rw [h1, npifft_centered_parseval]
  calc ∑ k : ZMod n, Complex.abs (p.field_w k
        * Complex.exp (Complex.I * ((phase_from_dispersion (p.w k) w0 gdd tod : ℝ) : ℂ))) ^ 2
      = ∑ k : ZMod n, Complex.abs (p.field_w k) ^ 2 :=
        Finset.sum_congr rfl fun k _ => by rw [abs_mul_exp_I]
    _ = (n : ℝ) * ∑ j : ZMod n, Complex.abs (p.field_t j) ^ 2 := by
        rw [hw]
        exact npfft_centered_parseval _

/-- C2: applying a free-space dispersion stage (phase-only or Treacy
grating-pair variant) with `apply_to_pulse` set, to a state whose `field_w` is
the (centred) Fourier transform of `field_t`, leaves the spectral magnitude
`|field_w|` unchanged pointwise and the total energy `Σ|A(t)|²·dt` unchanged
exactly. -/
theorem phase_only_stage_preserves (cfg : FreeSpaceCfg) (st : LaserState) (res : StageResultS)
    (happly : cfg.applyToPulse = true)
    (hw : st.pulse.data.field_w = npfft_centered st.pulse.data.field_t)
    (h : treacyStageProcess cfg st = .ok res) :
    stateAbsW res.state = stateAbsW st ∧ stateEnergyT res.state = stateEnergyT st := by
  cases cfg with
  | phase_only_dispersion pc =>
    have hap : pc.apply_to_pulse = true := happly
    unfold treacyStageProcess at h
    dsimp only at h
    injection h with h'
    subst h'
    refine ⟨?_, ?_⟩
    · unfold stateAbsW
      refine congrArg (Sigma.mk st.pulse.n) (funext fun k => ?_)
      simp only [hap, if_true]
      exact applyDispersionPhase_absW _ _ _ st.pulse.data k
    · unfold stateEnergyT
      simp only [hap, if_true]
      exact congrArg (fun x => x * st.pulse.data.dt) (applyDispersionPhase_energy _ _ _ _ hw)
  | treacy_grating_pair tc =>
    have hap : tc.apply_to_pulse = true := happly
    unfold treacyStageProcess at h
    dsimp only at h
    rcases hc : compute_treacy_metrics tc with e | tm
    · rw [hc] at h
      exact (Except.noConfusion h)
    · rw [hc] at h
      dsimp only at h
      injection h with h'
      subst h'
      refine ⟨?_, ?_⟩
      · unfold stateAbsW
        refine congrArg (Sigma.mk st.pulse.n) (funext fun k => ?_)
        simp only [hap, if_true]
        exact applyDispersionPhase_absW _ _ _ st.pulse.data k
      · unfold stateEnergyT
        simp only [hap, if_true]
        exact congrArg (fun x => x * st.pulse.data.dt) (applyDispersionPhase_energy _ _ _ _ hw)

/-- C2 witness: `phase_only_stage_preserves` on a concrete phase-only stage
and a one-sample consistent state. -/
theorem phase_only_stage_preserves_witness :
    ∃ res, treacyStageProcess phaseOnlyCfgW unitState1 = .ok res
      ∧ stateAbsW res.state = stateAbsW unitState1
      ∧ stateEnergyT res.state = stateEnergyT unitState1 := by
  have hthm := phase_only_stage_preserves phaseOnlyCfgW unitState1 _ rfl rfl rfl
  exact ⟨_, rfl, hthm.1, hthm.2⟩

/-- With unit linear phase and unit gain factor, `_half_linear_step` is the
identity (the two centred transforms cancel). -/
lemma half_linear_step_id {n : ℕ} [NeZero n] (x : ZMod n → ℂ) :
    half_linear_step x (fun _ => 1) 1 = x := by
  unfold half_linear_step
  have h1 : (fun k : ZMod n => npfft_centered x k * (fun _ : ZMod n => (1 : ℂ)) k
      * ((1 : ℝ) : ℂ)) = npfft_centered x := by
    funext k
    simp
  rw [h1, npifft_centered_npfft_centered]

/-- With zero Kerr coefficient, unit linear phase and unit gain factor, one
split-step iteration is the identity on the envelope. -/
lemma toy_split_step_id {n : ℕ} [NeZero n] (dz : ℝ) (x : ZMod n → ℂ) :
    toy_split_step 0.0 dz (fun _ => 1) 1 x = x := by
  unfold toy_split_step
  dsimp only
  simp only [half_linear_step_id]
  funext j
  norm_num

/-- C3: the toy split-step fiber amplifier stage configured with
`gain_db = 0`, `loss_db_per_m = 0`, `beta2_s2_per_m = 0`, `gamma_w_inv_m = 0`,
`amp_power_w` unset, any `length_m > 0` and any `n_steps ≥ 1`, returns an
output envelope `field_t` equal to the input envelope exactly. -/
theorem toy_amp_zero_coefficients_identity (cfg : ToyFiberAmpCfg) (policy : Option PolicyBag)
    (st : LaserState) (res : StageResultS)
    (hlen : 0.0 < cfg.length_m) (hns : 1 ≤ cfg.n_steps)
    (hg : cfg.gain_db = some 0.0) (hap : cfg.amp_power_w = none)
    (hloss : cfg.loss_db_per_m = 0.0) (hb2 : cfg.beta2_s2_per_m = 0.0)
    (hgam : cfg.gamma_w_inv_m = 0.0)
    (h : toyFiberAmpProcess cfg policy st = .ok res) :
    stateFieldT res.state = stateFieldT st := by
  unfold toyFiberAmpProcess at h
  rcases hm : meta_rep_rate_hz st.meta "ToyFiberAmpStage" with e | rr
  · rw [hm] at h
    exact Except.noConfusion h
  · rw [hm] at h
    dsimp only at h
    rw [hap, hg] at h
    have hres : ∀ pw l L : ℝ, resolve_gain_db none (some (0.0 : ℝ)) pw l L = .ok 0.0 :=
      fun _ _ _ => rfl
    rw [hres] at h
    dsimp only at h
    injection h with h'
    subst h'
    unfold stateFieldT
    dsimp only
    refine congrArg (Sigma.mk st.pulse.n) ?_
    have hgp : power_gain_coeff_per_m 0.0 cfg.length_m = 0 := by
      unfold power_gain_coeff_per_m
      rw [show (0.0 : ℝ) / 10.0 = 0 by norm_num, Real.rpow_zero, Real.log_one, zero_div]
    have hlp : (fun k : ZMod st.pulse.n =>
        Complex.exp (Complex.I * ((0.5 * cfg.beta2_s2_per_m * st.pulse.data.w k ^ 2
          * (cfg.length_m / (cfg.n_steps : ℝ)) : ℝ) : ℂ))) = fun _ => 1 := by
      funext k
      rw [hb2]
      norm_num
    have hahl : Real.exp (0.25 * (power_gain_coeff_per_m 0.0 cfg.length_m
        - cfg.loss_db_per_m * DB_TO_NEPER_POWER) * (cfg.length_m / (cfg.n_steps : ℝ)))
        = 1 := by
      rw [hgp, hloss]
      norm_num
    rw [hgam, hlp, hahl]
    exact Function.iterate_fixed (toy_split_step_id _ _) cfg.n_steps

/-- C3 witness: `toy_amp_zero_coefficients_identity` on the all-zero
coefficient config and the unit one-sample state. -/
theorem toy_amp_zero_coefficients_identity_witness :
    ∃ res, toyFiberAmpProcess toyAmpCfgZero none unitState1 = .ok res
      ∧ stateFieldT res.state = stateFieldT unitState1 := by
  have hm : meta_rep_rate_hz unitState1.meta "ToyFiberAmpStage" = .ok (1.0 * 1e6) := by
    unfold meta_rep_rate_hz unitState1
    dsimp only
    rw [if_neg (by norm_num)]
  have hok : ∃ res, toyFiberAmpProcess toyAmpCfgZero none unitState1 = .ok res := by
    unfold toyFiberAmpProcess toyAmpCfgZero resolve_gain_db
    rw [hm]
    dsimp only
    exact ⟨_, rfl⟩
  obtain ⟨res, hres⟩ := hok
  exact ⟨res, hres,
    toy_amp_zero_coefficients_identity toyAmpCfgZero none unitState1 res
      (by norm_num [toyAmpCfgZero]) (by norm_num [toyAmpCfgZero]) rfl rfl rfl rfl rfl hres⟩

/-- `dict.get` on a cons cell. -/
lemma dlookup_cons {α : Type} (k' k : String) (v : α) (r : List (String × α)) :
    dlookup ((k', v) :: r) k = if k' == k then some v else dlookup r k := by
  unfold dlookup
  rw [List.find?]
  by_cases hk : k' == k
  · rw [hk]
    rfl
  · rw [Bool.of_not_eq_true hk]
    rfl

/-- C4: with a target output average power `amp_power_w` set, the toy
split-step amplifier resolves its single effective gain as
`10·log10(amp_power_w / input_average_power) + loss_db_per_m·length_m` dB,
where the input average power is the input pulse energy in joules times the
metadata repetition rate in Hz; a non-positive resolved input average power is
a value error (raised before any propagation), and on success the resolved
gain is reported as the `<name>.gain_db_applied` metric. -/
theorem toy_amp_power_target_gain (cfg : ToyFiberAmpCfg) (policy : Option PolicyBag)
    (st : LaserState) (ap rr : ℝ)
    (hap : cfg.amp_power_w = some ap)
    (hm : meta_rep_rate_hz st.meta "ToyFiberAmpStage" = .ok rr) :
    (energy_j_field st.pulse.data.field_t st.pulse.data.dt * rr ≤ 0.0 →
      toyFiberAmpProcess cfg policy st = .error .toyAmpInputPowerNotPositive)
    ∧ (∀ res, toyFiberAmpProcess cfg policy st = .ok res →
        dlookup res.metrics (cfg.name ++ ".gain_db_applied")
          = some (10.0 * Real.logb 10
              (ap / (energy_j_field st.pulse.data.field_t st.pulse.data.dt * rr))
            + cfg.loss_db_per_m * cfg.length_m)) := by
  constructor
  · intro hple
    unfold toyFiberAmpProcess
    rw [hm]
    dsimp only
    rw [hap]
    unfold resolve_gain_db
    dsimp only
    rw [if_pos hple]
  · intro res h
    unfold toyFiberAmpProcess at h
    rw [hm] at h
    dsimp only at h
    rw [hap] at h
    unfold resolve_gain_db at h
    dsimp only at h
    by_cases hple : energy_j_field st.pulse.data.field_t st.pulse.data.dt * rr ≤ 0.0
    · rw [if_pos hple] at h
      exact Except.noConfusion h
    · rw [if_neg hple] at h
      by_cases hng : ap / (energy_j_field st.pulse.data.field_t st.pulse.data.dt * rr) ≤ 0.0
      · rw [if_pos hng] at h
        exact Except.noConfusion h
      · rw [if_neg hng] at h
        dsimp only at h
        injection h with h'
        subst h'
        dsimp only
        rw [dlookup_cons, dlookup_cons]
        have h8 : (cfg.name ++ ".gain_db").length = cfg.name.length + 8 := by
          rw [String.length_append]
          rfl
        have h16 : (cfg.name ++ ".gain_db_applied").length = cfg.name.length + 16 := by
          rw [String.length_append]
          rfl
        have hne : ¬(cfg.name ++ ".gain_db" == cfg.name ++ ".gain_db_applied") = true := by
          rw [beq_iff_eq]
          intro hk
          rw [hk] at h8
          rw [h8] at h16
          omega
        rw [Bool.of_not_eq_true hne, if_neg (by simp), if_pos (by simp)]

/-- C4 witness: `toy_amp_power_target_gain` on the power-target config and the
zero-envelope state, whose input average power is 0: the stage raises the
input-power value error. -/
theorem toy_amp_power_target_gain_witness :
    toyFiberAmpProcess toyAmpCfgPower none zeroState1 = .error .toyAmpInputPowerNotPositive := by
  have hm : meta_rep_rate_hz zeroState1.meta "ToyFiberAmpStage" = .ok (1.0 * 1e6) := by
    unfold meta_rep_rate_hz zeroState1
    dsimp only
    rw [if_neg (by norm_num)]
  have hple : energy_j_field zeroState1.pulse.data.field_t zeroState1.pulse.data.dt
      * (1.0 * 1e6) ≤ 0.0 := by
    unfold energy_j_field zeroState1 zeroPulse1
    dsimp only
    simp [FS_TO_S]
    norm_num
  exact (toy_amp_power_target_gain toyAmpCfgPower none zeroState1 1.0 (1.0 * 1e6) rfl hm).1 hple

/-! ## Determinism infrastructure: threading the timestamp-derived meta
entries (`provenance`, `run_id`) through every stage -/

/-- Replace exactly the two timestamp-derived meta entries of a state. -/
def withPR (s : LaserState) (p : Option RunProvenance) (r : Option String) : LaserState :=
  { s with meta := { s.meta with provenance := p, run_id := r } }

/-- Replace the timestamp-derived meta entries of a stage result's state. -/
def resWithPR (p : Option RunProvenance) (r : Option String) (res : StageResultS) :
    StageResultS :=
  { res with state := withPR res.state p r }

/-- Replace the timestamp-derived meta entries of a pipeline fold result. -/
def tripWithPR (p : Option RunProvenance) (r : Option String)
    (t : LaserState × List (String × ℝ) × List (String × String)) :
    LaserState × List (String × ℝ) × List (String × String) :=
  (withPR t.1 p r, t.2.1, t.2.2)

/-- A stage process threads the timestamp-derived meta entries: on any input
they are carried through unchanged and nothing else depends on them. -/
def StageThreadsPR (f : LaserState → Except SimError StageResultS) : Prop :=
  ∀ s p r, f (withPR s p r) = (f s).map (resWithPR p r)

/-- Two states agree after scrubbing iff one is the other with the
timestamp-derived entries replaced. -/
lemma scrub_eq_withPR {s1 s2 : LaserState} (h : stateScrub s1 = stateScrub s2) :
    s2 = withPR s1 s2.meta.provenance s2.meta.run_id := by
  have hcalc : withPR (stateScrub s1) s2.meta.provenance s2.meta.run_id
      = withPR (stateScrub s2) s2.meta.provenance s2.meta.run_id := by rw [h]
  exact hcalc.symm

/-- `SimpleGainStage.process` threads the timestamp-derived meta entries. -/
lemma simpleGainProcess_withPR (cfg : SimpleGainCfg) (s : LaserState)
    (p : Option RunProvenance) (r : Option String) :
    simpleGainProcess cfg (withPR s p r) = resWithPR p r (simpleGainProcess cfg s) := rfl

/-- `run_toy_phase` threads the timestamp-derived meta entries. -/
lemma run_toy_phase_withPR (name : String) (num : ToyPhaseNumericsCfg) (s : LaserState)
    (p : Option RunProvenance) (r : Option String) :
    run_toy_phase name num (withPR s p r) = resWithPR p r (run_toy_phase name num s) := rfl

/-- `StandardMetricsStage.process` threads the timestamp-derived meta
entries. -/
lemma standardMetricsProcess_withPR (cfg : MetricsCfg) (policy : Option PolicyBag)
    (s : LaserState) (p : Option RunProvenance) (r : Option String) :
    standardMetricsProcess cfg policy (withPR s p r)
      = resWithPR p r (standardMetricsProcess cfg policy s) := by
  unfold standardMetricsProcess resWithPR withPR
  dsimp only

/-- `TreacyGratingStage.process` threads the timestamp-derived meta
entries. -/
lemma treacyStageProcess_withPR (cfg : FreeSpaceCfg) (s : LaserState)
    (p : Option RunProvenance) (r : Option String) :
    treacyStageProcess cfg (withPR s p r)
      = (treacyStageProcess cfg s).map (resWithPR p r) := by
  cases cfg with
  | treacy_grating_pair tc =>
    unfold treacyStageProcess resWithPR withPR
    dsimp only
    rcases hc : compute_treacy_metrics tc with e | tm
    · rfl
    · dsimp only [Except.map]
  | phase_only_dispersion pc =>
    unfold treacyStageProcess resWithPR withPR
    dsimp only [Except.map]

/-- `AnalyticLaserGenStage.process` threads the timestamp-derived meta
entries. -/
lemma laserGenProcess_withPR (cfg : LaserGenCfg) (policy : Option PolicyBag) (s : LaserState)
    (p : Option RunProvenance) (r : Option String) :
    laserGenProcess cfg policy (withPR s p r)
      = (laserGenProcess cfg policy s).map (resWithPR p r) := by
  unfold laserGenProcess resWithPR withPR
  dsimp only
  by_cases h2 : cfg.spec.pulse.n_samples < 2
  · rw [dif_pos h2, dif_pos h2]
    rfl
  · rw [dif_neg h2, dif_neg h2]
    rcases hpp : resolve_peak_power_w cfg.spec.pulse (resolve_intensity_fwhm_fs cfg.spec.pulse)
      with e | pw
    · rfl
    · dsimp only [Except.map]

/-- `FiberStage.process` threads the timestamp-derived meta entries. -/
lemma fiberStageProcess_withPR (cfg : FiberCfg) (policy : Option PolicyBag) (s : LaserState)
    (p : Option RunProvenance) (r : Option String) :
    fiberStageProcess cfg policy (withPR s p r)
      = (fiberStageProcess cfg policy s).map (resWithPR p r) := by
  unfold fiberStageProcess
  rw [show uniformSpacing (withPR s p r).pulse.data.t = uniformSpacing s.pulse.data.t from rfl]
  by_cases hu : uniformSpacing s.pulse.data.t
  · rw [if_pos hu, if_pos hu]
    cases hn : cfg.numerics with
    | toy_phase num =>
      dsimp only
      rw [run_toy_phase_withPR]
      rfl
  · rw [if_neg hu, if_neg hu]
    rfl

/-- `fiberAmpWrapTail` threads the timestamp-derived meta entries. -/
lemma fiberAmpWrapTail_withPR (cfg : FiberAmpWrapCfg) (policy : Option PolicyBag)
    (rr_hz energy_in_j power_in_avg_w g_net loss_eff_db_per_m loss_total_db_per_m : ℝ)
    (wc : FiberCfg) (s : LaserState) (p : Option RunProvenance) (r : Option String) :
    fiberAmpWrapTail cfg policy rr_hz energy_in_j power_in_avg_w g_net loss_eff_db_per_m
        loss_total_db_per_m wc (withPR s p r)
      = (fiberAmpWrapTail cfg policy rr_hz energy_in_j power_in_avg_w g_net loss_eff_db_per_m
          loss_total_db_per_m wc s).map (resWithPR p r) := by
  unfold fiberAmpWrapTail
  rw [fiberStageProcess_withPR]
  rcases hf : fiberStageProcess wc policy s with e | fr
  · rfl
  · dsimp only [Except.map, resWithPR, withPR]

/-- `FiberAmpWrapStage.process` threads the timestamp-derived meta entries. -/
lemma fiberAmpWrapProcess_withPR (cfg : FiberAmpWrapCfg) (policy : Option PolicyBag)
    (s : LaserState) (p : Option RunProvenance) (r : Option String) :
    fiberAmpWrapProcess cfg policy (withPR s p r)
      = (fiberAmpWrapProcess cfg policy s).map (resWithPR p r) := by
  unfold fiberAmpWrapProcess
  rw [show meta_rep_rate_hz (withPR s p r).meta "FiberAmpWrapStage"
      = meta_rep_rate_hz s.meta "FiberAmpWrapStage" from rfl]
  rcases hm : meta_rep_rate_hz s.meta "FiberAmpWrapStage" with e | rr
  · rfl
  · dsimp only
    rw [show energy_j_field (withPR s p r).pulse.data.field_t (withPR s p r).pulse.data.dt
        = energy_j_field s.pulse.data.field_t s.pulse.data.dt from rfl]
    by_cases hp1 : energy_j_field s.pulse.data.field_t s.pulse.data.dt * rr ≤ 0.0
    · rw [if_pos hp1, if_pos hp1]
      rfl
    · rw [if_neg hp1, if_neg hp1]
      by_cases hp2 : cfg.physics.length_m ≤ 0.0
      · rw [if_pos hp2, if_pos hp2]
        rfl
      · rw [if_neg hp2, if_neg hp2]
        by_cases hp3 : cfg.power_out_w
            / (energy_j_field s.pulse.data.field_t s.pulse.data.dt * rr) ≤ 0.0
        · rw [if_pos hp3, if_pos hp3]
          rfl
        · rw [if_neg hp3, if_neg hp3]
          exact fiberAmpWrapTail_withPR _ _ _ _ _ _ _ _ _ _ _ _

/-- The sequential pipeline fold threads the timestamp-derived meta entries
whenever every stage in the list does. -/
lemma runStageList_withPR (name : String) (stages : List BuiltStage)
    (hall : ∀ b ∈ stages, StageThreadsPR b.process) (p : Option RunProvenance)
    (r : Option String) :
    ∀ (s : LaserState) (accM : List (String × ℝ)) (accA : List (String × String)),
      runStageList name stages (withPR s p r) accM accA
        = (runStageList name stages s accM accA).map (tripWithPR p r) := by
  induction stages with
  | nil =>
    intro s accM accA
    rfl
  | cons b rest ih =>
    intro s accM accA
    unfold runStageList
    rw [hall b (List.mem_cons_self b rest) s p r]
    rcases hb : b.process s with e | rres
    · rfl
    · dsimp only [Except.map, resWithPR]
      exact ih (fun c hc => hall c (List.mem_cons_of_mem b hc))
        { rres.state with metrics := dictUpdate rres.state.metrics rres.metrics }
        (dictUpdate accM (rres.metrics.map fun q => (name ++ "." ++ b.name ++ "." ++ q.1, q.2)))
        (dictUpdate accA rres.state.artifacts)

/-- Every stage built by `build_pipeline` threads the timestamp-derived meta
entries. -/
lemma pipelineStages_withPR (cfg : PipelineConfig) (policy : Option PolicyBag) :
    ∀ b ∈ pipelineStages cfg policy, StageThreadsPR b.process := by
  intro b hb
  unfold pipelineStages at hb
  dsimp only at hb
  rcases List.mem_append.mp hb with hb1 | hb2
  · rcases List.mem_append.mp hb1 with hb3 | hb4
    · rw [List.mem_singleton.mp hb3]
      exact fun s p r => laserGenProcess_withPR cfg.laser_gen policy s p r
    · rcases List.mem_map.mp hb4 with ⟨c, hc, hbc⟩
      rw [← hbc]
      cases c with
      | free_space fc =>
        exact fun s p r => treacyStageProcess_withPR fc s p r
      | fiber fc =>
        exact fun s p r => fiberStageProcess_withPR fc policy s p r
      | simple_gain sc =>
        intro s p r
        show Except.ok (simpleGainProcess sc (withPR s p r)) = _
        rw [simpleGainProcess_withPR]
        rfl
      | fiber_amp_wrap wc =>
        exact fun s p r => fiberAmpWrapProcess_withPR wc policy s p r
  · rw [List.mem_singleton.mp hb2]
    intro s p r
    show Except.ok (standardMetricsProcess cfg.metrics policy (withPR s p r)) = _
    rw [standardMetricsProcess_withPR]
    rfl

/-- C1: `run_pipeline` is deterministic up to the timestamp: two calls with
identical configuration (including the seed), identical policy, and identical
hashing collaborators — differing only in the wall-clock timestamp `now` —
that both succeed produce final states that agree on everything except the
timestamp-derived `provenance`/`run_id` meta entries (in particular the pulse
arrays `field_t`, `field_w`, `intensity_t`, `spectrum_w` are identical), and
produce identical pipeline metrics and artifacts maps. -/
theorem run_pipeline_deterministic
    (hashConfig : PipelineConfig → String) (hashPolicy : Option PolicyBag → Option String)
    (sha : String → String) (cfg : PipelineConfig) (policy : Option PolicyBag)
    (now1 now2 : String) (res1 res2 : PipelineResult)
    (h1 : run_pipeline hashConfig hashPolicy sha cfg policy now1 = .ok res1)
    (h2 : run_pipeline hashConfig hashPolicy sha cfg policy now2 = .ok res2) :
    stateScrub res1.state = stateScrub res2.state
      ∧ res1.metrics = res2.metrics ∧ res1.artifacts = res2.artifacts := by
  unfold run_pipeline at h1 h2
  dsimp only at h1 h2
  rcases hr : runStageList "cpa" (pipelineStages cfg policy)
      (emptyState (provenance_from_seed_and_hash sha cfg.runtime.seed (hashConfig cfg)
        (hashPolicy policy) now1)) [] [] with e | t
  · rw [hr] at h1
    exact Except.noConfusion h1
  · obtain ⟨stF, mF, aF⟩ := t
    rw [hr] at h1
    dsimp only at h1
    injection h1 with h1'
    subst h1'
    have hr2 : runStageList "cpa" (pipelineStages cfg policy)
        (emptyState (provenance_from_seed_and_hash sha cfg.runtime.seed (hashConfig cfg)
          (hashPolicy policy) now2)) [] []
        = .ok (withPR stF (some (provenance_from_seed_and_hash sha cfg.runtime.seed
            (hashConfig cfg) (hashPolicy policy) now2)) none, mF, aF) := by
      have he : emptyState (provenance_from_seed_and_hash sha cfg.runtime.seed (hashConfig cfg)
          (hashPolicy policy) now2)
          = withPR (emptyState (provenance_from_seed_and_hash sha cfg.runtime.seed
              (hashConfig cfg) (hashPolicy policy) now1))
            (some (provenance_from_seed_and_hash sha cfg.runtime.seed (hashConfig cfg)
              (hashPolicy policy) now2)) none := rfl
      rw [he,
        runStageList_withPR "cpa" (pipelineStages cfg policy)
          (pipelineStages_withPR cfg policy) _ _ _ _ _,
        hr]
      rfl
    rw [hr2] at h2
    dsimp only at h2
    injection h2 with h2'
    subst h2'
    exact ⟨rfl, rfl, rfl⟩

/-- C1 witness: two runs of the witness pipeline (empty middle-stage list:
laser generator followed by the metrics stage) with distinct timestamps both
succeed and agree after scrubbing the timestamp-derived meta entries. -/
theorem run_pipeline_deterministic_witness :
    ∃ res1 res2,
      run_pipeline (fun _ => "h") (fun _ => none) (fun _ => "s") pipelineCfgW none "t1"
          = .ok res1
      ∧ run_pipeline (fun _ => "h") (fun _ => none) (fun _ => "s") pipelineCfgW none "t2"
          = .ok res2
      ∧ stateScrub res1.state = stateScrub res2.state
      ∧ res1.metrics = res2.metrics ∧ res1.artifacts = res2.artifacts := by
  have hpp : ∀ w, resolve_peak_power_w pipelineCfgW.laser_gen.spec.pulse w = .ok 1.0 := by
    intro w
    simp [pipelineCfgW, resolve_peak_power_w, resolve_pulse_energy_j]
  have hlaser : ∀ st : LaserState, ∃ r,
      laserGenProcess pipelineCfgW.laser_gen none st = .ok r := by
    intro st
    unfold laserGenProcess
    dsimp only
    rw [dif_neg (show ¬(pipelineCfgW.laser_gen.spec.pulse.n_samples < 2) by
      norm_num [pipelineCfgW])]
    rw [hpp]
    dsimp only
    exact ⟨_, rfl⟩
  have hrun : ∀ now, ∃ r,
      run_pipeline (fun _ => "h") (fun _ => none) (fun _ => "s") pipelineCfgW none now
        = .ok r := by
    intro now
    unfold run_pipeline
    dsimp only
    rw [show pipelineStages pipelineCfgW none
        = [ { name := pipelineCfgW.laser_gen.name
              process := laserGenProcess pipelineCfgW.laser_gen none }
          , { name := pipelineCfgW.metrics.name
              process := fun st => .ok (standardMetricsProcess pipelineCfgW.metrics none st) } ]
      from rfl]
    obtain ⟨r1, hr1⟩ := hlaser (emptyState (provenance_from_seed_and_hash (fun _ => "s")
      pipelineCfgW.runtime.seed "h" none now))
    unfold runStageList
    dsimp only
    rw [hr1]
    dsimp only
    unfold runStageList
    dsimp only
    exact ⟨_, rfl⟩
  obtain ⟨r1, h1⟩ := hrun "t1"
  obtain ⟨r2, h2⟩ := hrun "t2"
  exact ⟨r1, r2, h1, h2,
    run_pipeline_deterministic (fun _ => "h") (fun _ => none) (fun _ => "s") pipelineCfgW none
      "t1" "t2" r1 r2 h1 h2⟩

end CpaSim
